import Mathlib

/-!
# Blackbox link observer: shallow embedding of `clients/blackbox/link_observer.c`

The embedding covers `crowd_safe_dispatch` (the per-transition dispatch with its
shadow-stack return verification), `notify_traversing_fragments` (the edge
recorder) and `notify_traversing_syscall` (the syscall observer).

Conventions
* Addresses (`app_pc`) are natural numbers; `PC(0)` and `NULL` are `0`.
* The shadow stack is the list of frames from the current `SHADOW_FRAME(csd)`
  downwards to the base of the per-thread array: the head of the list is the
  top frame, `csd->shadow_stack--` drops the head.  Reading `SHADOW_FRAME(csd)`
  when the list is exhausted is a read outside the array and yields `none`.
* `ASSERT`, `DODEBUG`, `CS_DET`/`CS_LOG`/`CS_WARN`/`CS_ERR` and the blocks under
  `MONITOR_ENTRY_RATE`, `MONITOR_UNEXPECTED_IBP`, `CROWD_SAFE_DYNAMIC_IMPORTS`,
  `SEED_TLS_FOR_IBL_VERIFICATION` and `DEBUG` only log or check; they are
  left out (release build without the monitors); so is the debug hook
  `CROWD_SAFE_DEBUG_HOOK_VOID`.
* In `crowd_safe_dispatch` the calls `crowd_safe_heartbeat` and
  `check_shadow_stack_bounds` are left out; of the calls that leave the function
  only `indirect_link_hashtable_insert` and the final transfer to the code
  cache are recorded.
* In the edge recorder and the syscall observer, functions of the repository
  that `link_observer.c` calls but does not define are recorded as call events,
  in program order, with the arguments passed; what they answer is read from
  an environment record.
* `unwind_count` (a `uint`) is a natural number: it never exceeds the number of
  frames on the fixed-capacity stack.
-/

namespace Blackbox

/-! ## Data model -/

/-- Shadow stack frame `shadow_stack_frame_t`: the stack pointer recorded at the
call and the address the call is expected to return to. -/
structure shadow_stack_frame_t where
  base_pointer : Nat
  return_address : Nat
  deriving DecidableEq

/-- Modelled from the spec: the `IBP_META_*` masks and the `IBP_SET_META`,
`IBP_PATH_IS_PENDING`, `IBP_IS_NEW_PATH`, `IBP_STACK_IS_PENDING`, `IBP_IS_RETURN`
macros are declared in `crowd_safe_util.h`, which is missing; the spec lists the
metadata bit-set of a transition as these five independent bits.
`IBP_SET_META(d, &, ~B)` clears bit `B`, `IBP_SET_META(d, |, B)` sets it. -/
structure ibp_meta_t where
  path_pending : Bool
  new_path : Bool
  stack_pending : Bool
  is_return : Bool
  unexpected_return : Bool
  deriving DecidableEq

/-- Per-transition state `ibp_metadata_t`. -/
structure ibp_metadata_t where
  ibp_from_tag : Nat
  ibp_to_tag : Nat
  ibp_meta : ibp_meta_t
  deriving DecidableEq

/-- The part of `local_crowd_safe_data_t` that `crowd_safe_dispatch` touches.
`shadow_stack` is the frame list seen through `SHADOW_FRAME(csd)` (top first);
`shadow_stack_miss_frame` holds the stack position saved on a miss. -/
structure local_crowd_safe_data_t where
  ibp_data : ibp_metadata_t
  shadow_stack : List shadow_stack_frame_t
  shadow_stack_miss_frame : List shadow_stack_frame_t
  deriving DecidableEq

/-- The fields of `dcontext_t` read by `crowd_safe_dispatch`: `next_tag`, the
application stack pointer `XSP(dcontext)` and the data of `GET_CS_DATA`. -/
structure dcontext_t where
  next_tag : Nat
  xsp : Nat
  csd : local_crowd_safe_data_t
  deriving DecidableEq

/-- What `fragment_lookup` answers for a tag: whether `FRAG_SHARED` is set in the
flags, and `FCACHE_ENTRY_PC` of the fragment. -/
structure fragment_t where
  shared : Bool
  entry_pc : Nat
  deriving DecidableEq

/-- Environment of `crowd_safe_dispatch`: the option `CROWD_SAFE_BB_GRAPH()`, the
constant `SHADOW_STACK_SENTINEL` (its value is declared in a missing header, so it
is a parameter) and the answers of `fragment_lookup`. -/
structure dispatch_env where
  CROWD_SAFE_BB_GRAPH : Bool
  SHADOW_STACK_SENTINEL : Nat
  fragment_lookup : Nat → Option fragment_t

/-- How a call of `crowd_safe_dispatch` ends. -/
inductive dispatch_exit where
  /-- Control reaches the end of the function (or the early `return`). -/
  | returned
  /-- Null target: `set_fcache_target(dcontext, target); (*fcache_enter)(dcontext)`,
  which does not return. -/
  | fcache_target (target : Nat)
  /-- New path: `enter_fcache(dcontext, fcache_enter, FCACHE_ENTRY_PC(to_fragment))`,
  which does not return; `shared` tells which enter routine was chosen. -/
  | enter_fcache (shared : Bool) (entry_pc : Nat)
  deriving DecidableEq

/-- Outcome of one call of `crowd_safe_dispatch`: the thread data afterwards, how
the call ended, the calls of `indirect_link_hashtable_insert` made (with the
`(ibp_from_tag, ibp_to_tag)` current at the call), and the final values of the
locals `matched_address`, `context_switch`, `unwind_count` of the
stack-pending block (their initial values when the block is not run). -/
structure dispatch_result where
  csd : local_crowd_safe_data_t
  exit : dispatch_exit
  inserts : List (Nat × Nat)
  matched_address : Bool
  context_switch : Bool
  unwind_count : Nat
  deriving DecidableEq

/-! ## `crowd_safe_dispatch` -/

/-- Conversion of an integer to the 32-bit `int`: the value modulo `2^32` in
`[-2^31, 2^31)`. -/
def to_int32 (z : Int) : Int := (z + 2 ^ 31) % 2 ^ 32 - 2 ^ 31

/-- Lines 284-286: `int stack_delta = XSP - base_pointer; if (stack_delta < 0)
stack_delta = -stack_delta;`.  The pointer difference is narrowed to `int`; the
negation wraps in 32 bits (so `-INT_MIN` is `INT_MIN`). -/
def stack_delta (xsp base_pointer : Nat) : Int :=
  let d := to_int32 ((xsp : Int) - (base_pointer : Int))
  if d < 0 then to_int32 (-d) else d

/-- Lines 292-302, the unwind loop.  Arguments: the sentinel, `XSP(dcontext)`,
`ibp_data->ibp_to_tag`, the stack as the loop finds it and the current
`unwind_count`.  Result: the stack and `unwind_count` when the loop is left and
whether it was left through `break` (`expected = matched_address = true`).
`none` when a frame outside the array is read. -/
def unwind_loop (sentinel xsp ibp_to_tag : Nat) :
    List shadow_stack_frame_t → Nat → Option (List shadow_stack_frame_t × Nat × Bool)
  | [], _ => none
  | f :: rest, unwind_count =>
    if f.base_pointer < xsp ∧ f.base_pointer ≠ sentinel then
      -- csd->shadow_stack--; unwind_count++;
      match rest with
      | [] => none
      | g :: _ =>
        if ibp_to_tag = g.return_address then
          some (rest, unwind_count + 1, true)
        else
          unwind_loop sentinel xsp ibp_to_tag rest (unwind_count + 1)
    else
      some (f :: rest, unwind_count, false)

/-- Lines 183-189, the prologue: a null `ibp_from_tag` clears path-pending, and a
clear path-pending bit nulls `ibp_from_tag`. -/
def dispatch_prologue (d : ibp_metadata_t) : ibp_metadata_t :=
  let d1 : ibp_metadata_t :=
    if d.ibp_from_tag = 0 then
      { d with ibp_meta := { d.ibp_meta with path_pending := false } }
    else d
  if d1.ibp_meta.path_pending = false then { d1 with ibp_from_tag := 0 } else d1

/-- Lines 248-307 (and the classification read at 337-358), the block run when
`IBP_STACK_IS_PENDING(ibp_data)`: verification of a return against the shadow
stack.  `csd` is the thread data after the prologue. -/
def stack_pending_block (env : dispatch_env) (next_tag xsp : Nat)
    (csd : local_crowd_safe_data_t) : Option dispatch_result :=
  match csd.shadow_stack with
  | [] => none
  | top :: below =>
    let ibp_data := csd.ibp_data
    -- lines 269-272
    let to_tag :=
      if top.base_pointer ≠ env.SHADOW_STACK_SENTINEL ∧ ibp_data.ibp_to_tag ≠ top.return_address
      then next_tag else ibp_data.ibp_to_tag
    if top.base_pointer ≠ env.SHADOW_STACK_SENTINEL ∧ to_tag = top.return_address then
      -- lines 280-281, then 307
      some { csd := { csd with
                      shadow_stack := below
                      ibp_data := { ibp_data with
                        ibp_meta := { ibp_data.ibp_meta with stack_pending := false } } }
             exit := dispatch_exit.returned
             inserts := []
             matched_address := true
             context_switch := false
             unwind_count := 0 }
    else
      -- line 288
      let miss := csd.shadow_stack
      if stack_delta xsp top.base_pointer > 0x1000 then
        -- line 290; expected stays false, so line 305 sets the bit; then 307
        some { csd := { csd with
                        shadow_stack_miss_frame := miss
                        ibp_data := { ibp_data with
                          ibp_meta := { ibp_data.ibp_meta with
                                        unexpected_return := true
                                        stack_pending := false } } }
               exit := dispatch_exit.returned
               inserts := []
               matched_address := false
               context_switch := true
               unwind_count := 0 }
      else
        match unwind_loop env.SHADOW_STACK_SENTINEL xsp ibp_data.ibp_to_tag csd.shadow_stack 0 with
        | none => none
        | some (stack, unwind_count, expected) =>
          -- lines 304-305, then 307
          some { csd := { csd with
                          shadow_stack := stack
                          shadow_stack_miss_frame := miss
                          ibp_data := { ibp_data with
                            ibp_meta := { ibp_data.ibp_meta with
                                          unexpected_return :=
                                            if expected then ibp_data.ibp_meta.unexpected_return
                                            else true
                                          stack_pending := false } } }
                 exit := dispatch_exit.returned
                 inserts := []
                 matched_address := expected
                 context_switch := false
                 unwind_count := unwind_count }

/-- The function `crowd_safe_dispatch` (lines 152-363). -/
def crowd_safe_dispatch (env : dispatch_env) (dcontext : dcontext_t) : Option dispatch_result :=
  let unchanged : dispatch_result :=
    { csd := dcontext.csd, exit := dispatch_exit.returned, inserts := [],
      matched_address := false, context_switch := false, unwind_count := 0 }
  if env.CROWD_SAFE_BB_GRAPH = false then
    some unchanged
  else
    let ibp_data := dispatch_prologue dcontext.csd.ibp_data
    let csd : local_crowd_safe_data_t := { dcontext.csd with ibp_data := ibp_data }
    if ibp_data.ibp_meta.new_path = true then
      -- line 204
      let ibp_data : ibp_metadata_t :=
        { ibp_data with ibp_meta := { ibp_data.ibp_meta with new_path := false } }
      let csd : local_crowd_safe_data_t := { csd with ibp_data := ibp_data }
      if ibp_data.ibp_to_tag = 0 then
        -- lines 206-216
        some { unchanged with csd := csd, exit := dispatch_exit.fcache_target 0 }
      else
        -- line 232, then 235-246
        match env.fragment_lookup ibp_data.ibp_to_tag with
        | none => none
        | some to_fragment =>
          some { unchanged with
                 csd := csd
                 inserts := [(ibp_data.ibp_from_tag, ibp_data.ibp_to_tag)]
                 exit := dispatch_exit.enter_fcache to_fragment.shared to_fragment.entry_pc }
    else if ibp_data.ibp_meta.stack_pending = true then
      stack_pending_block env dcontext.next_tag dcontext.xsp csd
    else
      some { unchanged with csd := csd }

/-! ## Edge recorder and syscall observer -/

/-- Modelled from the spec: `graph_edge_type` is declared in a missing header; the
spec lists the edge types direct, indirect, unexpected_return and syscall.
`link_observer.c` itself names `direct_edge`, `indirect_edge` and
`unexpected_return_edge`. -/
inductive graph_edge_type where
  | direct_edge
  | indirect_edge
  | unexpected_return_edge
  | syscall_edge
  deriving DecidableEq

/-- Modelled from the spec: the module types of `module_location_t` (the source
names `module_type_anonymous`; the declaration is missing). -/
inductive module_type where
  | module_type_normal
  | module_type_anonymous
  | module_type_black_box
  | module_type_system
  deriving DecidableEq

/-- Modelled from the spec: `module_location_t` (declared in a missing header),
reduced to a name (as a number) and the module type. -/
structure module_location_t where
  module_name : Nat
  type : module_type
  deriving DecidableEq

/-- Modelled from the spec: the macro `IS_BLACK_BOX` is missing; a module is
black-box when it is classified so by its type. -/
def IS_BLACK_BOX (m : module_location_t) : Bool :=
  decide (m.type = module_type.module_type_black_box)

/-- Modelled from the spec: `bb_state_t` (declared in a missing header), reduced to
the content hash and the liveness of the block. -/
structure bb_state_t where
  hash : Nat
  live : Bool
  deriving DecidableEq

/-- Modelled from the spec: the macro `IS_BB_LIVE` is missing; it reads the
liveness of the block state. -/
def IS_BB_LIVE (s : bb_state_t) : Bool := s.live

/-- Modelled from the spec: `trampoline_tracker` (declared in a missing header):
the resolved `function_entry` (`NULL`, that is 0, while unresolved) and the
buffered callers `(caller, exit_ordinal, is_direct)`. -/
structure trampoline_tracker where
  function_entry : Nat
  function_callers : List (Nat × Nat × Bool)
  deriving DecidableEq

/-- Calls that `notify_traversing_fragments` and `notify_traversing_syscall` make to
functions defined outside `link_observer.c`, with the arguments passed (the
`dcontext` argument is left out; a tracker is named by its key). -/
inductive call_event where
  | get_module_for_address (pc : Nat)
  | hashcode_lock_acquire
  | hashcode_lock_release
  | get_bb_state (pc : Nat)
  | add_pending_edge (from_pc to_pc exit_ordinal : Nat) (edge_type : graph_edge_type)
      (from_module to_module : module_location_t) (flag : Bool)
  | write_link (from_pc to_pc : Nat) (from_state to_state : Option bb_state_t)
      (from_module to_module : module_location_t) (exit_ordinal : Nat)
      (edge_type : graph_edge_type)
  | omit_bb_from_static_hash_output (pc : Nat)
  | hashtable_lookup_trampoline_trackers (pc : Nat)
  | resolve_pending_trampolines
  | pend_trampoline_caller (trampoline from_pc exit_ordinal : Nat) (is_direct : Bool)
  | write_trampoline (trampoline from_pc exit_ordinal : Nat) (edge_type : graph_edge_type)
  | observe_dynamic_sysnum (dsbb_tag : Nat) (syscall_number : Int)
  | get_bb_hash (pc : Nat)
  | write_hash (hash : Nat)
  deriving DecidableEq

/-- Recognises a `write_link` call. -/
def call_event.is_write_link : call_event → Bool
  | call_event.write_link _ _ _ _ _ _ _ _ => true
  | _ => false

/-- Recognises an `add_pending_edge` call. -/
def call_event.is_add_pending_edge : call_event → Bool
  | call_event.add_pending_edge _ _ _ _ _ _ _ => true
  | _ => false

/-- Recognises a call that emits or buffers a trampoline edge. -/
def call_event.is_trampoline_edge : call_event → Bool
  | call_event.pend_trampoline_caller _ _ _ _ => true
  | call_event.write_trampoline _ _ _ _ => true
  | _ => false

/-- The edge type passed to a `write_link` call. -/
def call_event.link_edge_type : call_event → Option graph_edge_type
  | call_event.write_link _ _ _ _ _ _ _ edge_type => some edge_type
  | _ => none

/-- Recognises a lock operation. -/
def call_event.is_lock_op : call_event → Bool
  | call_event.hashcode_lock_acquire => true
  | call_event.hashcode_lock_release => true
  | _ => false

/-- Environment of the edge recorder and of the syscall observer: the build
(`UNIX` defined or not, width of `app_pc`), the options, the constants declared
in missing headers, and what the tables answer during the call. -/
structure graph_env where
  UNIX : Bool
  ptr_bits : Nat
  CROWD_SAFE_BB_GRAPH : Bool
  CROWD_SAFE_PAIR_HASH : Bool
  SYSCALL_SINGLETON_START : Nat
  SYS_execve : Int
  system_module : module_location_t
  get_module_for_address : Nat → module_location_t
  get_bb_state : Nat → Option bb_state_t
  get_bb_hash : Nat → Nat
  omit_bb_from_static_hash_output : Nat → Bool
  /-- Answer of `hashtable_lookup(trampoline_trackers, pc)`. -/
  trampoline_trackers : Nat → Option trampoline_tracker
  /-- Content of the tracker stored under a key once `resolve_pending_trampolines()`
  has run, given its content before. -/
  resolve_pending_trampolines : Nat → trampoline_tracker → trampoline_tracker

/-- The condition of line 422: `to_state == NULL || !IS_BB_LIVE(to_state)`. -/
def state_missing_or_inactive (to_state : Option bb_state_t) : Bool :=
  match to_state with
  | none => true
  | some s => !IS_BB_LIVE s

/-- Lines 431-457, the `UNIX` block of `notify_traversing_fragments`: the calls it
makes, and whether it leaves the function (`return`) before line 459. -/
def trampoline_block (env : graph_env) (from_pc to_pc exit_ordinal : Nat)
    (edge_type : graph_edge_type) : List call_event × Bool :=
  -- line 432, with the short circuit of `||`
  if env.omit_bb_from_static_hash_output from_pc = true then
    ([call_event.omit_bb_from_static_hash_output from_pc], true)
  else if env.omit_bb_from_static_hash_output to_pc = true then
    ([call_event.omit_bb_from_static_hash_output from_pc,
      call_event.omit_bb_from_static_hash_output to_pc], true)
  else
    match env.trampoline_trackers to_pc with
    | some trampoline =>
      -- lines 438-447
      let resolved := env.resolve_pending_trampolines to_pc trampoline
      ([call_event.omit_bb_from_static_hash_output from_pc,
        call_event.omit_bb_from_static_hash_output to_pc,
        call_event.hashtable_lookup_trampoline_trackers to_pc,
        call_event.hashcode_lock_acquire,
        call_event.resolve_pending_trampolines,
        if resolved.function_entry = 0 then
          call_event.pend_trampoline_caller to_pc from_pc exit_ordinal
            (decide (edge_type = graph_edge_type.direct_edge))
        else
          call_event.write_trampoline to_pc from_pc exit_ordinal edge_type,
        call_event.hashcode_lock_release], true)
    | none =>
      -- lines 450-456
      if edge_type = graph_edge_type.indirect_edge then
        match env.trampoline_trackers from_pc with
        | some trampoline =>
          ([call_event.omit_bb_from_static_hash_output from_pc,
            call_event.omit_bb_from_static_hash_output to_pc,
            call_event.hashtable_lookup_trampoline_trackers to_pc,
            call_event.hashtable_lookup_trampoline_trackers from_pc],
           decide (trampoline.function_entry ≠ 0))
        | none =>
          ([call_event.omit_bb_from_static_hash_output from_pc,
            call_event.omit_bb_from_static_hash_output to_pc,
            call_event.hashtable_lookup_trampoline_trackers to_pc,
            call_event.hashtable_lookup_trampoline_trackers from_pc], false)
      else
        ([call_event.omit_bb_from_static_hash_output from_pc,
          call_event.omit_bb_from_static_hash_output to_pc,
          call_event.hashtable_lookup_trampoline_trackers to_pc], false)

/-- Lines 431-457 as compiled: the `UNIX` block when `UNIX` is defined, nothing
otherwise. -/
def unix_block (env : graph_env) (from_pc to_pc exit_ordinal : Nat)
    (edge_type : graph_edge_type) : List call_event × Bool :=
  if env.UNIX = true then trampoline_block env from_pc to_pc exit_ordinal edge_type
  else ([], false)

/-- The calls of lines 383-420, up to the liveness check of line 422. -/
def checks_trace (from_pc to_pc : Nat) : List call_event :=
  [call_event.get_module_for_address from_pc, call_event.get_module_for_address to_pc,
   call_event.hashcode_lock_acquire, call_event.get_bb_state from_pc,
   call_event.get_bb_state to_pc]

/-- The function `notify_traversing_fragments` (lines 377-462): the calls it makes,
in order. -/
def notify_traversing_fragments (env : graph_env) (from_pc to_pc exit_ordinal : Nat)
    (edge_type : graph_edge_type) : List call_event :=
  -- lines 383-384
  let from_module := env.get_module_for_address from_pc
  let to_module := env.get_module_for_address to_pc
  if env.CROWD_SAFE_BB_GRAPH = false then
    [call_event.get_module_for_address from_pc, call_event.get_module_for_address to_pc]
  else
    -- lines 395-420
    let from_state := env.get_bb_state from_pc
    let to_state := env.get_bb_state to_pc
    if state_missing_or_inactive to_state = true then
      -- lines 422-427
      if ¬ (IS_BLACK_BOX from_module = true ∧ IS_BLACK_BOX to_module = true) then
        checks_trace from_pc to_pc ++
          [call_event.add_pending_edge from_pc to_pc exit_ordinal edge_type
             from_module to_module true,
           call_event.hashcode_lock_release]
      else
        checks_trace from_pc to_pc ++ [call_event.hashcode_lock_release]
    else
      -- line 429, then the `UNIX` block
      let block := unix_block env from_pc to_pc exit_ordinal edge_type
      if block.2 = true then
        checks_trace from_pc to_pc ++ [call_event.hashcode_lock_release] ++ block.1
      else
        -- lines 459-461
        checks_trace from_pc to_pc ++ [call_event.hashcode_lock_release] ++ block.1 ++
          [call_event.hashcode_lock_acquire,
           call_event.write_link from_pc to_pc from_state to_state from_module to_module
             exit_ordinal edge_type,
           call_event.hashcode_lock_release]

/-- Modelled from the spec: `observe_dynamic_sysnum` is defined in a missing file;
by the spec it answers whether this is the first observation of the pair
`(block, syscall_number)` and remembers the pair. -/
def observe_dynamic_sysnum (observed : List (Nat × Int)) (dsbb_tag : Nat)
    (syscall_number : Int) : Bool × List (Nat × Int) :=
  if (dsbb_tag, syscall_number) ∈ observed then (false, observed)
  else (true, observed ++ [(dsbb_tag, syscall_number)])

/-- Line 481: `SYSCALL_SINGLETON_START + syscall_number` as an `app_pc`, that is
modulo `2 ^ ptr_bits`. -/
def syscall_singleton_pc (env : graph_env) (syscall_number : Int) : Nat :=
  (((env.SYSCALL_SINGLETON_START : Int) + syscall_number) % 2 ^ env.ptr_bits).toNat

/-- Line 492: `hash ^ (hash << 5U) ^ (bb_hash_t)syscall_number` on the 64-bit
`bb_hash_t`. -/
def syscall_hash (hash : Nat) (syscall_number : Int) : Nat :=
  (hash ^^^ ((hash <<< 5) % 2 ^ 64)) ^^^ (syscall_number % 2 ^ 64).toNat

/-- The static function `flush_output_buffers` (lines 580-587). -/
def flush_output_buffers (env : graph_env) : List call_event :=
  if env.UNIX = true then
    [call_event.hashcode_lock_acquire, call_event.resolve_pending_trampolines,
     call_event.hashcode_lock_release]
  else []

/-- The function `notify_traversing_syscall` (lines 464-503): the pairs observed
after the call and the calls made, in order. -/
def notify_traversing_syscall (env : graph_env) (observed : List (Nat × Int))
    (dsbb_tag : Nat) (syscall_number : Int) : List (Nat × Int) × List call_event :=
  if env.CROWD_SAFE_BB_GRAPH = false then
    (observed, [])
  else
    let first := observe_dynamic_sysnum observed dsbb_tag syscall_number
    let dsbb_module := env.get_module_for_address dsbb_tag
    let pc := syscall_singleton_pc env syscall_number
    let body : List call_event :=
      if first.1 = true then
        [call_event.get_module_for_address dsbb_tag,
         call_event.get_bb_state dsbb_tag,
         call_event.get_bb_state pc,
         call_event.write_link dsbb_tag pc (env.get_bb_state dsbb_tag) (env.get_bb_state pc)
           dsbb_module env.system_module 0 graph_edge_type.indirect_edge] ++
        (if env.CROWD_SAFE_PAIR_HASH = true then
          [call_event.get_bb_hash dsbb_tag,
           call_event.write_hash (syscall_hash (env.get_bb_hash dsbb_tag) syscall_number)]
         else [])
      else []
    let tail : List call_event :=
      if env.UNIX = true ∧ syscall_number = env.SYS_execve then flush_output_buffers env
      else []
    (first.2,
      [call_event.hashcode_lock_acquire,
       call_event.observe_dynamic_sysnum dsbb_tag syscall_number] ++ body ++
      [call_event.hashcode_lock_release] ++ tail)

/-- The graph edges written by a call: its `write_link` calls. -/
def written_links (trace : List call_event) : List call_event :=
  trace.filter call_event.is_write_link

/-- The pending edges queued by a call: its `add_pending_edge` calls. -/
def queued_pending_edges (trace : List call_event) : List call_event :=
  trace.filter call_event.is_add_pending_edge

/-- Whether the lock is kept from the liveness check of `to_pc` (the first
`get_bb_state to_pc` call) up to the first `write_link` call: no
`hashcode_lock_release` lies between them. -/
def lock_held_from_check_to_write (to_pc : Nat) (trace : List call_event) : Bool :=
  let after_check := trace.dropWhile (fun e => decide (e ≠ call_event.get_bb_state to_pc))
  let up_to_write := after_check.takeWhile (fun e => !e.is_write_link)
  !(up_to_write.contains call_event.hashcode_lock_release)

/-- Recognises a `write_hash` call. -/
def call_event.is_write_hash : call_event → Bool
  | call_event.write_hash _ => true
  | _ => false

/-- The hash records written by a call: its `write_hash` calls. -/
def written_hashes (trace : List call_event) : List call_event :=
  trace.filter call_event.is_write_hash

/-- The trampoline edges written (`write_trampoline`) or buffered
(`pend_trampoline_caller`) by a call. -/
def trampoline_edges (trace : List call_event) : List call_event :=
  trace.filter call_event.is_trampoline_edge

/-- The syscall hash fold in the words of the spec, `h XOR (h << 5) XOR n`, on
64-bit words: the shift drops the bits pushed out, the syscall number is
converted to the 64-bit hash type. -/
def fold_spec (h : Nat) (n : Int) : BitVec 64 :=
  BitVec.ofNat 64 h ^^^ (BitVec.ofNat 64 h <<< 5) ^^^ BitVec.ofInt 64 n

/-! ## Concrete scenarios -/

/-- Environment of the concrete scenarios: graph recording on, an arbitrary
sentinel value, no fragment known. -/
def scenario_env : dispatch_env :=
  { CROWD_SAFE_BB_GRAPH := true, SHADOW_STACK_SENTINEL := 0x7fffffff,
    fragment_lookup := fun _ => none }

/-- The sentinel frame of the concrete scenarios. -/
def scenario_sentinel : shadow_stack_frame_t := ⟨0x7fffffff, 0⟩

/-- A return-pending transition to `dst` (not new-path, unexpected_return
clear) on the shadow stack `stack`, with `next_tag = dst` and stack pointer
`xsp`. -/
def scenario_return (stack : List shadow_stack_frame_t) (dst xsp : Nat) : dcontext_t :=
  { next_tag := dst
    xsp := xsp
    csd :=
      { ibp_data :=
          { ibp_from_tag := 0x400, ibp_to_tag := dst,
            ibp_meta := { path_pending := true, new_path := false, stack_pending := true,
                          is_return := true, unexpected_return := false } }
        shadow_stack := stack
        shadow_stack_miss_frame := [] } }

/-- Edge-recorder scenario with a block `X = 0x401000` and a block `Y = 0x402000`:
the states of the two blocks and the type of the (single) module holding them
are given; build without `UNIX`, 64-bit addresses, syscall nodes from `0x1000`. -/
def scenario_graph (x_state y_state : Option bb_state_t) (type : module_type) : graph_env :=
  { UNIX := false
    ptr_bits := 64
    CROWD_SAFE_BB_GRAPH := true
    CROWD_SAFE_PAIR_HASH := true
    SYSCALL_SINGLETON_START := 0x1000
    SYS_execve := 59
    system_module := ⟨0, module_type.module_type_system⟩
    get_module_for_address := fun _ => ⟨1, type⟩
    get_bb_state := fun pc =>
      if pc = 0x401000 then x_state else if pc = 0x402000 then y_state else none
    get_bb_hash := fun _ => 7
    omit_bb_from_static_hash_output := fun _ => false
    trampoline_trackers := fun _ => none
    resolve_pending_trampolines := fun _ t => t }

/-- Dispatch scenario in which `fragment_lookup` knows one fragment, for the tag
`0xA00`: shared, entered at `0xCA00`. -/
def scenario_env_with_fragment : dispatch_env :=
  { CROWD_SAFE_BB_GRAPH := true, SHADOW_STACK_SENTINEL := 0x7fffffff,
    fragment_lookup := fun tag => if tag = 0xA00 then some ⟨true, 0xCA00⟩ else none }

/-- A transition from `0x400` to `dst` with the given metadata bits, on the shadow
stack `stack`, with `next_tag = dst` and stack pointer `0x1000`. -/
def scenario_transition (bits : ibp_meta_t) (from_tag dst : Nat)
    (stack : List shadow_stack_frame_t) : dcontext_t :=
  { next_tag := dst
    xsp := 0x1000
    csd :=
      { ibp_data := { ibp_from_tag := from_tag, ibp_to_tag := dst, ibp_meta := bits }
        shadow_stack := stack
        shadow_stack_miss_frame := [] } }

/-- Edge-recorder scenario of a `UNIX` build: the blocks `X = 0x401000` and
`Y = 0x402000` are live, in one normal module, nothing is omitted; the
trampoline trackers are given and `resolve_pending_trampolines` leaves them as
they are. -/
def scenario_unix_graph (trackers : Nat → Option trampoline_tracker) : graph_env :=
  { UNIX := true
    ptr_bits := 64
    CROWD_SAFE_BB_GRAPH := true
    CROWD_SAFE_PAIR_HASH := true
    SYSCALL_SINGLETON_START := 0x1000
    SYS_execve := 59
    system_module := ⟨0, module_type.module_type_system⟩
    get_module_for_address := fun _ => ⟨1, module_type.module_type_normal⟩
    get_bb_state := fun pc =>
      if pc = 0x401000 then some ⟨7, true⟩ else if pc = 0x402000 then some ⟨9, true⟩ else none
    get_bb_hash := fun _ => 7
    omit_bb_from_static_hash_output := fun _ => false
    trampoline_trackers := trackers
    resolve_pending_trampolines := fun _ t => t }

/-- A return-pending transition (not new-path, unexpected_return clear) whose
`ibp_to_tag` is `dst` while `dcontext->next_tag` is `next`, on the shadow stack
`stack` with stack pointer `xsp`. -/
def scenario_return_next (stack : List shadow_stack_frame_t) (dst next xsp : Nat) :
    dcontext_t :=
  { next_tag := next
    xsp := xsp
    csd :=
      { ibp_data :=
          { ibp_from_tag := 0x400, ibp_to_tag := dst,
            ibp_meta := { path_pending := true, new_path := false, stack_pending := true,
                          is_return := true, unexpected_return := false } }
        shadow_stack := stack
        shadow_stack_miss_frame := [] } }

/-! ## The unwind loop -/

theorem unwind_loop_nil (S xsp t n : Nat) : unwind_loop S xsp t [] n = none := by
  simp [unwind_loop]

theorem unwind_loop_stop (S xsp t n : Nat) (f : shadow_stack_frame_t)
    (rest : List shadow_stack_frame_t) (h : ¬ (f.base_pointer < xsp ∧ f.base_pointer ≠ S)) :
    unwind_loop S xsp t (f :: rest) n = some (f :: rest, n, false) := by
  simp only [unwind_loop, if_neg h]

theorem unwind_loop_hit (S xsp t n : Nat) (f g : shadow_stack_frame_t)
    (rest : List shadow_stack_frame_t) (h : f.base_pointer < xsp ∧ f.base_pointer ≠ S)
    (hm : t = g.return_address) :
    unwind_loop S xsp t (f :: g :: rest) n = some (g :: rest, n + 1, true) := by
  simp [unwind_loop, h, hm]

theorem unwind_loop_step (S xsp t n : Nat) (f g : shadow_stack_frame_t)
    (rest : List shadow_stack_frame_t) (h : f.base_pointer < xsp ∧ f.base_pointer ≠ S)
    (hm : t ≠ g.return_address) :
    unwind_loop S xsp t (f :: g :: rest) n = unwind_loop S xsp t (g :: rest) (n + 1) := by
  simp [unwind_loop, h, hm]

theorem unwind_loop_last (S xsp t n : Nat) (f : shadow_stack_frame_t)
    (h : f.base_pointer < xsp ∧ f.base_pointer ≠ S) :
    unwind_loop S xsp t [f] n = none := by
  simp [unwind_loop, h]

theorem unwind_loop_total (S xsp t : Nat) :
    ∀ (stack : List shadow_stack_frame_t) (n : Nat),
      (∃ f ∈ stack, f.base_pointer = S) →
      ∃ popped rest e, unwind_loop S xsp t stack n = some (rest, n + popped.length, e) ∧
        stack = popped ++ rest ∧ rest ≠ [] ∧
        (∀ f ∈ popped, f.base_pointer < xsp ∧ f.base_pointer ≠ S) := by
  intro stack
  induction stack with
  | nil => intro n h; obtain ⟨f, hf, _⟩ := h; cases hf
  | cons f rest ih =>
    intro n h
    by_cases hg : f.base_pointer < xsp ∧ f.base_pointer ≠ S
    · have hrest : ∃ s ∈ rest, s.base_pointer = S := by
        obtain ⟨s, hs, hsb⟩ := h
        rcases List.mem_cons.mp hs with rfl | hin
        · exact absurd hsb hg.2
        · exact ⟨s, hin, hsb⟩
      cases rest with
      | nil => obtain ⟨s, hs, _⟩ := hrest; cases hs
      | cons g rest2 =>
        by_cases hm : t = g.return_address
        · refine ⟨[f], g :: rest2, true, ?_, rfl, by simp, ?_⟩
          · simpa using unwind_loop_hit S xsp t n f g rest2 hg hm
          · intro x hx
            rw [List.mem_singleton] at hx
            subst hx
            exact hg
        · obtain ⟨popped, rest3, e, h1, h2, h3, h4⟩ := ih (n + 1) hrest
          refine ⟨f :: popped, rest3, e, ?_, ?_, h3, ?_⟩
          · rw [unwind_loop_step S xsp t n f g rest2 hg hm, h1]
            simp only [List.length_cons, Nat.add_assoc, Nat.add_comm 1]
          · rw [h2]; rfl
          · intro x hx
            rcases List.mem_cons.mp hx with rfl | hin
            · exact hg
            · exact h4 x hin
    · exact ⟨[], f :: rest, false, by simpa using unwind_loop_stop S xsp t n f rest hg,
        rfl, by simp, by simp⟩

theorem unwind_loop_match (S xsp t : Nat) (g : shadow_stack_frame_t)
    (rest : List shadow_stack_frame_t) (hm : t = g.return_address) :
    ∀ (popped : List shadow_stack_frame_t) (n : Nat), popped ≠ [] →
      (∀ f ∈ popped, f.base_pointer < xsp ∧ f.base_pointer ≠ S) →
      (∀ f ∈ popped.tail, t ≠ f.return_address) →
      unwind_loop S xsp t (popped ++ g :: rest) n = some (g :: rest, n + popped.length, true) := by
  intro popped
  induction popped with
  | nil => intro n h; exact absurd rfl h
  | cons f ps ih =>
    intro n _ hguard hne
    have hg := hguard f (List.mem_cons_self f ps)
    cases ps with
    | nil => simpa using unwind_loop_hit S xsp t n f g rest hg hm
    | cons f2 ps2 =>
      have hne2 : t ≠ f2.return_address := hne f2 (by simp)
      have hstep := unwind_loop_step S xsp t n f f2 (ps2 ++ g :: rest) hg hne2
      have hrec := ih (n + 1) (by simp) (fun x hx => hguard x (List.mem_cons_of_mem f hx))
        (fun x hx => hne x (by simp at hx ⊢; exact Or.inr hx))
      simp only [List.cons_append] at hstep hrec ⊢
      rw [hstep, hrec]
      simp only [List.length_cons, Nat.add_assoc, Nat.add_comm 1]

theorem unwind_loop_miss (S xsp t : Nat) :
    ∀ (stack : List shadow_stack_frame_t) (n : Nat),
      (∃ f ∈ stack, f.base_pointer = S) →
      (∀ popped g rest, stack = popped ++ g :: rest → popped ≠ [] →
        (∀ f ∈ popped, f.base_pointer < xsp ∧ f.base_pointer ≠ S) → t ≠ g.return_address) →
      ∃ popped rest, unwind_loop S xsp t stack n = some (rest, n + popped.length, false) ∧
        stack = popped ++ rest ∧ rest ≠ [] ∧
        (∀ f ∈ popped, f.base_pointer < xsp ∧ f.base_pointer ≠ S) := by
  intro stack
  induction stack with
  | nil => intro n h; obtain ⟨f, hf, _⟩ := h; cases hf
  | cons f rest ih =>
    intro n h hno
    by_cases hg : f.base_pointer < xsp ∧ f.base_pointer ≠ S
    · have hrest : ∃ s ∈ rest, s.base_pointer = S := by
        obtain ⟨s, hs, hsb⟩ := h
        rcases List.mem_cons.mp hs with rfl | hin
        · exact absurd hsb hg.2
        · exact ⟨s, hin, hsb⟩
      cases rest with
      | nil => obtain ⟨s, hs, _⟩ := hrest; cases hs
      | cons g rest2 =>
        have hm : t ≠ g.return_address :=
          hno [f] g rest2 rfl (by simp) (by
            intro x hx
            rw [List.mem_singleton] at hx
            subst hx
            exact hg)
        have hno2 : ∀ popped g2 rest3, g :: rest2 = popped ++ g2 :: rest3 → popped ≠ [] →
            (∀ x ∈ popped, x.base_pointer < xsp ∧ x.base_pointer ≠ S) →
            t ≠ g2.return_address := by
          intro popped g2 rest3 heq _ hall
          refine hno (f :: popped) g2 rest3 (by rw [heq]; rfl) (by simp) ?_
          intro x hx
          rcases List.mem_cons.mp hx with rfl | hin
          · exact hg
          · exact hall x hin
        obtain ⟨popped, rest3, h1, h2, h3, h4⟩ := ih (n + 1) hrest hno2
        refine ⟨f :: popped, rest3, ?_, ?_, h3, ?_⟩
        · rw [unwind_loop_step S xsp t n f g rest2 hg hm, h1]
          simp only [List.length_cons, Nat.add_assoc, Nat.add_comm 1]
        · rw [h2]; rfl
        · intro x hx
          rcases List.mem_cons.mp hx with rfl | hin
          · exact hg
          · exact h4 x hin
    · exact ⟨[], f :: rest, by simpa using unwind_loop_stop S xsp t n f rest hg,
        rfl, by simp, by simp⟩

/-! ## The dispatch and its stack-pending block -/

theorem to_int32_eq (z : Int) (h1 : -2 ^ 31 ≤ z) (h2 : z < 2 ^ 31) : to_int32 z = z := by
  unfold to_int32
  omega

theorem stack_delta_near (xsp bp : Nat)
    (h : (xsp : Int) - bp ≤ 0x1000 ∧ (bp : Int) - xsp ≤ 0x1000) :
    stack_delta xsp bp ≤ 0x1000 := by
  unfold stack_delta
  have e1 : to_int32 ((xsp : Int) - bp) = (xsp : Int) - bp := to_int32_eq _ (by omega) (by omega)
  simp only [e1]
  split_ifs with hneg
  · rw [to_int32_eq _ (by omega) (by omega)]
    omega
  · omega

@[simp] theorem dispatch_prologue_to_tag (d : ibp_metadata_t) :
    (dispatch_prologue d).ibp_to_tag = d.ibp_to_tag := by
  unfold dispatch_prologue
  dsimp only
  split_ifs <;> rfl

@[simp] theorem dispatch_prologue_new_path (d : ibp_metadata_t) :
    (dispatch_prologue d).ibp_meta.new_path = d.ibp_meta.new_path := by
  unfold dispatch_prologue
  dsimp only
  split_ifs <;> rfl

@[simp] theorem dispatch_prologue_stack_pending (d : ibp_metadata_t) :
    (dispatch_prologue d).ibp_meta.stack_pending = d.ibp_meta.stack_pending := by
  unfold dispatch_prologue
  dsimp only
  split_ifs <;> rfl

@[simp] theorem dispatch_prologue_is_return (d : ibp_metadata_t) :
    (dispatch_prologue d).ibp_meta.is_return = d.ibp_meta.is_return := by
  unfold dispatch_prologue
  dsimp only
  split_ifs <;> rfl

@[simp] theorem dispatch_prologue_unexpected_return (d : ibp_metadata_t) :
    (dispatch_prologue d).ibp_meta.unexpected_return = d.ibp_meta.unexpected_return := by
  unfold dispatch_prologue
  dsimp only
  split_ifs <;> rfl

theorem crowd_safe_dispatch_stack_pending (env : dispatch_env) (dcontext : dcontext_t)
    (hgraph : env.CROWD_SAFE_BB_GRAPH = true)
    (hnew : dcontext.csd.ibp_data.ibp_meta.new_path = false)
    (hpend : dcontext.csd.ibp_data.ibp_meta.stack_pending = true) :
    crowd_safe_dispatch env dcontext =
      stack_pending_block env dcontext.next_tag dcontext.xsp
        ⟨dispatch_prologue dcontext.csd.ibp_data, dcontext.csd.shadow_stack,
          dcontext.csd.shadow_stack_miss_frame⟩ := by
  simp [crowd_safe_dispatch, hgraph, hnew, hpend]

theorem stack_pending_block_matched (env : dispatch_env) (next_tag xsp : Nat)
    (csd : local_crowd_safe_data_t) (top : shadow_stack_frame_t)
    (below : List shadow_stack_frame_t) (hstack : csd.shadow_stack = top :: below)
    (hpushed : top.base_pointer ≠ env.SHADOW_STACK_SENTINEL)
    (hdest : csd.ibp_data.ibp_to_tag = top.return_address ∨ next_tag = top.return_address) :
    stack_pending_block env next_tag xsp csd =
      some { csd := { csd with
                      shadow_stack := below
                      ibp_data := { csd.ibp_data with
                        ibp_meta := { csd.ibp_data.ibp_meta with stack_pending := false } } }
             exit := dispatch_exit.returned
             inserts := []
             matched_address := true
             context_switch := false
             unwind_count := 0 } := by
  unfold stack_pending_block
  rw [hstack]
  by_cases h : csd.ibp_data.ibp_to_tag = top.return_address
  · simp [hpushed, h]
  · rcases hdest with h1 | h1
    · exact absurd h1 h
    · simp [hpushed, h, h1]

theorem stack_pending_block_miss_cond (env : dispatch_env) (next_tag : Nat)
    (ibp_to_tag : Nat) (top : shadow_stack_frame_t)
    (hmiss : top.base_pointer = env.SHADOW_STACK_SENTINEL ∨
      (ibp_to_tag ≠ top.return_address ∧ next_tag ≠ top.return_address)) :
    ¬ (top.base_pointer ≠ env.SHADOW_STACK_SENTINEL ∧
        (if top.base_pointer ≠ env.SHADOW_STACK_SENTINEL ∧ ibp_to_tag ≠ top.return_address
          then next_tag else ibp_to_tag) = top.return_address) := by
  rintro ⟨hp, he⟩
  rcases hmiss with h | ⟨h1, h2⟩
  · exact hp h
  · rw [if_pos ⟨hp, h1⟩] at he
    exact h2 he

theorem stack_pending_block_context_switch (env : dispatch_env) (next_tag xsp : Nat)
    (csd : local_crowd_safe_data_t) (top : shadow_stack_frame_t)
    (below : List shadow_stack_frame_t) (hstack : csd.shadow_stack = top :: below)
    (hmiss : top.base_pointer = env.SHADOW_STACK_SENTINEL ∨
      (csd.ibp_data.ibp_to_tag ≠ top.return_address ∧ next_tag ≠ top.return_address))
    (hdelta : stack_delta xsp top.base_pointer > 0x1000) :
    stack_pending_block env next_tag xsp csd =
      some { csd := { csd with
                      shadow_stack_miss_frame := csd.shadow_stack
                      ibp_data := { csd.ibp_data with
                        ibp_meta := { csd.ibp_data.ibp_meta with
                                      unexpected_return := true
                                      stack_pending := false } } }
             exit := dispatch_exit.returned
             inserts := []
             matched_address := false
             context_switch := true
             unwind_count := 0 } := by
  unfold stack_pending_block
  rw [hstack]
  dsimp only
  rw [if_neg (stack_pending_block_miss_cond env next_tag _ top hmiss), if_pos hdelta]

theorem stack_pending_block_unwind (env : dispatch_env) (next_tag xsp : Nat)
    (csd : local_crowd_safe_data_t) (top : shadow_stack_frame_t)
    (below : List shadow_stack_frame_t) (hstack : csd.shadow_stack = top :: below)
    (hmiss : top.base_pointer = env.SHADOW_STACK_SENTINEL ∨
      (csd.ibp_data.ibp_to_tag ≠ top.return_address ∧ next_tag ≠ top.return_address))
    (hdelta : stack_delta xsp top.base_pointer ≤ 0x1000)
    (stack : List shadow_stack_frame_t) (count : Nat) (expected : Bool)
    (hloop : unwind_loop env.SHADOW_STACK_SENTINEL xsp csd.ibp_data.ibp_to_tag
      (top :: below) 0 = some (stack, count, expected)) :
    stack_pending_block env next_tag xsp csd =
      some { csd := { csd with
                      shadow_stack := stack
                      shadow_stack_miss_frame := csd.shadow_stack
                      ibp_data := { csd.ibp_data with
                        ibp_meta := { csd.ibp_data.ibp_meta with
                                      unexpected_return :=
                                        if expected then csd.ibp_data.ibp_meta.unexpected_return
                                        else true
                                      stack_pending := false } } }
             exit := dispatch_exit.returned
             inserts := []
             matched_address := expected
             context_switch := false
             unwind_count := count } := by
  have hd : ¬ stack_delta xsp top.base_pointer > 0x1000 := not_lt.mpr hdelta
  unfold stack_pending_block
  rw [hstack]
  dsimp only
  rw [if_neg (stack_pending_block_miss_cond env next_tag _ top hmiss), if_neg hd, hloop]

theorem bottom_kept {α : Type} (above popped rest : List α) (b : α)
    (h : above ++ [b] = popped ++ rest) (hr : rest ≠ []) :
    ∃ above2, rest = above2 ++ [b] ∧ above = popped ++ above2 := by
  have hsplit : rest = rest.dropLast ++ [rest.getLast hr] :=
    (List.dropLast_append_getLast hr).symm
  have h2 : above ++ [b] = (popped ++ rest.dropLast) ++ [rest.getLast hr] := by
    rw [List.append_assoc, ← hsplit]
    exact h
  obtain ⟨h3, h4⟩ := List.append_inj' h2 rfl
  refine ⟨rest.dropLast, ?_, h3⟩
  rw [h4]
  exact hsplit

/-! ## The edge recorder: shape of the call trace -/

theorem trampoline_block_no_edge (env : graph_env) (from_pc to_pc exit_ordinal : Nat)
    (edge_type : graph_edge_type) :
    written_links (trampoline_block env from_pc to_pc exit_ordinal edge_type).1 = [] ∧
    queued_pending_edges (trampoline_block env from_pc to_pc exit_ordinal edge_type).1 = [] := by
  unfold trampoline_block
  repeat' split
  all_goals first
    | exact ⟨rfl, rfl⟩
    | (dsimp only; split_ifs <;> exact ⟨rfl, rfl⟩)

theorem unix_block_no_edge (env : graph_env) (from_pc to_pc exit_ordinal : Nat)
    (edge_type : graph_edge_type) :
    written_links (unix_block env from_pc to_pc exit_ordinal edge_type).1 = [] ∧
    queued_pending_edges (unix_block env from_pc to_pc exit_ordinal edge_type).1 = [] := by
  unfold unix_block
  split
  · exact trampoline_block_no_edge env from_pc to_pc exit_ordinal edge_type
  · exact ⟨rfl, rfl⟩

theorem written_links_append (a b : List call_event) :
    written_links (a ++ b) = written_links a ++ written_links b := by
  simp [written_links]

theorem queued_pending_edges_append (a b : List call_event) :
    queued_pending_edges (a ++ b) = queued_pending_edges a ++ queued_pending_edges b := by
  simp [queued_pending_edges]

theorem notify_traversing_fragments_off (env : graph_env) (from_pc to_pc exit_ordinal : Nat)
    (edge_type : graph_edge_type) (hgraph : env.CROWD_SAFE_BB_GRAPH = false) :
    notify_traversing_fragments env from_pc to_pc exit_ordinal edge_type =
      [call_event.get_module_for_address from_pc, call_event.get_module_for_address to_pc] := by
  simp [notify_traversing_fragments, hgraph]

theorem notify_traversing_fragments_not_live (env : graph_env)
    (from_pc to_pc exit_ordinal : Nat) (edge_type : graph_edge_type)
    (hgraph : env.CROWD_SAFE_BB_GRAPH = true)
    (hto : state_missing_or_inactive (env.get_bb_state to_pc) = true) :
    notify_traversing_fragments env from_pc to_pc exit_ordinal edge_type =
      checks_trace from_pc to_pc ++
        (if IS_BLACK_BOX (env.get_module_for_address from_pc) = true ∧
            IS_BLACK_BOX (env.get_module_for_address to_pc) = true then
          [call_event.hashcode_lock_release]
        else
          [call_event.add_pending_edge from_pc to_pc exit_ordinal edge_type
             (env.get_module_for_address from_pc) (env.get_module_for_address to_pc) true,
           call_event.hashcode_lock_release]) := by
  unfold notify_traversing_fragments
  simp only [hgraph, hto]
  split_ifs <;> simp_all

theorem notify_traversing_fragments_live (env : graph_env)
    (from_pc to_pc exit_ordinal : Nat) (edge_type : graph_edge_type)
    (hgraph : env.CROWD_SAFE_BB_GRAPH = true)
    (hto : state_missing_or_inactive (env.get_bb_state to_pc) = false) :
    notify_traversing_fragments env from_pc to_pc exit_ordinal edge_type =
      checks_trace from_pc to_pc ++ [call_event.hashcode_lock_release] ++
        (unix_block env from_pc to_pc exit_ordinal edge_type).1 ++
        (if (unix_block env from_pc to_pc exit_ordinal edge_type).2 = true then []
         else
          [call_event.hashcode_lock_acquire,
           call_event.write_link from_pc to_pc (env.get_bb_state from_pc)
             (env.get_bb_state to_pc) (env.get_module_for_address from_pc)
             (env.get_module_for_address to_pc) exit_ordinal edge_type,
           call_event.hashcode_lock_release]) := by
  unfold notify_traversing_fragments
  simp only [hgraph, hto]
  split_ifs <;> simp_all

theorem notify_traversing_fragments_written (env : graph_env)
    (from_pc to_pc exit_ordinal : Nat) (edge_type : graph_edge_type) :
    written_links (notify_traversing_fragments env from_pc to_pc exit_ordinal edge_type) =
      if env.CROWD_SAFE_BB_GRAPH = true ∧
          state_missing_or_inactive (env.get_bb_state to_pc) = false ∧
          (unix_block env from_pc to_pc exit_ordinal edge_type).2 = false then
        [call_event.write_link from_pc to_pc (env.get_bb_state from_pc)
           (env.get_bb_state to_pc) (env.get_module_for_address from_pc)
           (env.get_module_for_address to_pc) exit_ordinal edge_type]
      else [] := by
  have hb := (unix_block_no_edge env from_pc to_pc exit_ordinal edge_type).1
  cases hg : env.CROWD_SAFE_BB_GRAPH
  · rw [notify_traversing_fragments_off env from_pc to_pc exit_ordinal edge_type hg]
    simp [written_links, call_event.is_write_link]
  · cases hs : state_missing_or_inactive (env.get_bb_state to_pc)
    · rw [notify_traversing_fragments_live env from_pc to_pc exit_ordinal edge_type hg hs]
      simp only [written_links_append, hb]
      cases hu : (unix_block env from_pc to_pc exit_ordinal edge_type).2 <;>
        simp [written_links, checks_trace, call_event.is_write_link]
    · rw [notify_traversing_fragments_not_live env from_pc to_pc exit_ordinal edge_type hg hs]
      simp only [written_links_append]
      split_ifs <;> simp_all [written_links, checks_trace, call_event.is_write_link]

theorem notify_traversing_fragments_queued (env : graph_env)
    (from_pc to_pc exit_ordinal : Nat) (edge_type : graph_edge_type) :
    queued_pending_edges
        (notify_traversing_fragments env from_pc to_pc exit_ordinal edge_type) =
      if env.CROWD_SAFE_BB_GRAPH = true ∧
          state_missing_or_inactive (env.get_bb_state to_pc) = true ∧
          ¬ (IS_BLACK_BOX (env.get_module_for_address from_pc) = true ∧
             IS_BLACK_BOX (env.get_module_for_address to_pc) = true) then
        [call_event.add_pending_edge from_pc to_pc exit_ordinal edge_type
           (env.get_module_for_address from_pc) (env.get_module_for_address to_pc) true]
      else [] := by
  have hb := (unix_block_no_edge env from_pc to_pc exit_ordinal edge_type).2
  cases hg : env.CROWD_SAFE_BB_GRAPH
  · rw [notify_traversing_fragments_off env from_pc to_pc exit_ordinal edge_type hg]
    simp [queued_pending_edges, call_event.is_add_pending_edge]
  · cases hs : state_missing_or_inactive (env.get_bb_state to_pc)
    · rw [notify_traversing_fragments_live env from_pc to_pc exit_ordinal edge_type hg hs]
      simp only [queued_pending_edges_append, hb]
      cases hu : (unix_block env from_pc to_pc exit_ordinal edge_type).2 <;>
        simp [queued_pending_edges, checks_trace, call_event.is_add_pending_edge]
    · rw [notify_traversing_fragments_not_live env from_pc to_pc exit_ordinal edge_type hg hs]
      simp only [queued_pending_edges_append]
      split_ifs <;> simp_all [queued_pending_edges, checks_trace, call_event.is_add_pending_edge]

theorem trampoline_block_no_lock (env : graph_env) (from_pc to_pc exit_ordinal : Nat)
    (edge_type : graph_edge_type)
    (h : (trampoline_block env from_pc to_pc exit_ordinal edge_type).2 = false) :
    ∀ e ∈ (trampoline_block env from_pc to_pc exit_ordinal edge_type).1,
      e.is_lock_op = false := by
  intro e he
  unfold trampoline_block at h he
  by_cases h1 : env.omit_bb_from_static_hash_output from_pc = true
  · rw [if_pos h1] at h
    cases h
  rw [if_neg h1] at h he
  by_cases h2 : env.omit_bb_from_static_hash_output to_pc = true
  · rw [if_pos h2] at h
    cases h
  rw [if_neg h2] at h he
  cases h3 : env.trampoline_trackers to_pc with
  | some t =>
    rw [h3] at h
    cases h
  | none =>
    rw [h3] at he
    dsimp only at he
    by_cases h4 : edge_type = graph_edge_type.indirect_edge
    · rw [if_pos h4] at he
      cases h5 : env.trampoline_trackers from_pc with
      | some t =>
        rw [h5] at he
        simp only [List.mem_cons, List.mem_singleton, List.not_mem_nil, or_false] at he
        rcases he with rfl | rfl | rfl | rfl <;> rfl
      | none =>
        rw [h5] at he
        simp only [List.mem_cons, List.mem_singleton, List.not_mem_nil, or_false] at he
        rcases he with rfl | rfl | rfl | rfl <;> rfl
    · rw [if_neg h4] at he
      simp only [List.mem_cons, List.mem_singleton, List.not_mem_nil, or_false] at he
      rcases he with rfl | rfl | rfl <;> rfl

theorem unix_block_no_lock (env : graph_env) (from_pc to_pc exit_ordinal : Nat)
    (edge_type : graph_edge_type)
    (h : (unix_block env from_pc to_pc exit_ordinal edge_type).2 = false) :
    ∀ e ∈ (unix_block env from_pc to_pc exit_ordinal edge_type).1, e.is_lock_op = false := by
  unfold unix_block at h ⊢
  by_cases hu : env.UNIX = true
  · rw [if_pos hu] at h ⊢
    exact trampoline_block_no_lock env from_pc to_pc exit_ordinal edge_type h
  · rw [if_neg hu]
    intro e he
    cases he

theorem observe_dynamic_sysnum_first (observed : List (Nat × Int)) (dsbb_tag : Nat)
    (syscall_number : Int) (h : (dsbb_tag, syscall_number) ∉ observed) :
    observe_dynamic_sysnum observed dsbb_tag syscall_number =
      (true, observed ++ [(dsbb_tag, syscall_number)]) := by
  unfold observe_dynamic_sysnum
  rw [if_neg h]

theorem observe_dynamic_sysnum_again (observed : List (Nat × Int)) (dsbb_tag : Nat)
    (syscall_number : Int) (h : (dsbb_tag, syscall_number) ∈ observed) :
    observe_dynamic_sysnum observed dsbb_tag syscall_number = (false, observed) := by
  unfold observe_dynamic_sysnum
  rw [if_pos h]

theorem flush_output_buffers_no_edge (env : graph_env) :
    written_links (flush_output_buffers env) = [] ∧
    queued_pending_edges (flush_output_buffers env) = [] := by
  unfold flush_output_buffers
  split <;> exact ⟨rfl, rfl⟩

theorem notify_traversing_syscall_first (env : graph_env) (observed : List (Nat × Int))
    (dsbb_tag : Nat) (syscall_number : Int) (hgraph : env.CROWD_SAFE_BB_GRAPH = true)
    (hfirst : (dsbb_tag, syscall_number) ∉ observed) :
    notify_traversing_syscall env observed dsbb_tag syscall_number =
      (observed ++ [(dsbb_tag, syscall_number)],
       [call_event.hashcode_lock_acquire,
        call_event.observe_dynamic_sysnum dsbb_tag syscall_number] ++
       ([call_event.get_module_for_address dsbb_tag,
         call_event.get_bb_state dsbb_tag,
         call_event.get_bb_state (syscall_singleton_pc env syscall_number),
         call_event.write_link dsbb_tag (syscall_singleton_pc env syscall_number)
           (env.get_bb_state dsbb_tag)
           (env.get_bb_state (syscall_singleton_pc env syscall_number))
           (env.get_module_for_address dsbb_tag) env.system_module 0
           graph_edge_type.indirect_edge] ++
        (if env.CROWD_SAFE_PAIR_HASH = true then
          [call_event.get_bb_hash dsbb_tag,
           call_event.write_hash (syscall_hash (env.get_bb_hash dsbb_tag) syscall_number)]
         else [])) ++
       [call_event.hashcode_lock_release] ++
       (if env.UNIX = true ∧ syscall_number = env.SYS_execve then flush_output_buffers env
        else [])) := by
  unfold notify_traversing_syscall
  rw [observe_dynamic_sysnum_first observed dsbb_tag syscall_number hfirst]
  simp only [hgraph, Bool.true_eq_false, if_false, if_true]

theorem notify_traversing_syscall_again (env : graph_env) (observed : List (Nat × Int))
    (dsbb_tag : Nat) (syscall_number : Int) (hgraph : env.CROWD_SAFE_BB_GRAPH = true)
    (hagain : (dsbb_tag, syscall_number) ∈ observed) :
    notify_traversing_syscall env observed dsbb_tag syscall_number =
      (observed,
       [call_event.hashcode_lock_acquire,
        call_event.observe_dynamic_sysnum dsbb_tag syscall_number] ++ [] ++
       [call_event.hashcode_lock_release] ++
       (if env.UNIX = true ∧ syscall_number = env.SYS_execve then flush_output_buffers env
        else [])) := by
  unfold notify_traversing_syscall
  rw [observe_dynamic_sysnum_again observed dsbb_tag syscall_number hagain]
  simp only [hgraph, Bool.true_eq_false, Bool.false_eq_true, if_false, if_true]

theorem notify_traversing_syscall_off (env : graph_env) (observed : List (Nat × Int))
    (dsbb_tag : Nat) (syscall_number : Int) (hgraph : env.CROWD_SAFE_BB_GRAPH = false) :
    notify_traversing_syscall env observed dsbb_tag syscall_number = (observed, []) := by
  unfold notify_traversing_syscall
  simp only [hgraph, if_true]

theorem notify_traversing_syscall_written (env : graph_env) (observed : List (Nat × Int))
    (dsbb_tag : Nat) (syscall_number : Int) :
    written_links (notify_traversing_syscall env observed dsbb_tag syscall_number).2 =
      if env.CROWD_SAFE_BB_GRAPH = true ∧ (dsbb_tag, syscall_number) ∉ observed then
        [call_event.write_link dsbb_tag (syscall_singleton_pc env syscall_number)
           (env.get_bb_state dsbb_tag)
           (env.get_bb_state (syscall_singleton_pc env syscall_number))
           (env.get_module_for_address dsbb_tag) env.system_module 0
           graph_edge_type.indirect_edge]
      else [] := by
  have hf := (flush_output_buffers_no_edge env).1
  cases hg : env.CROWD_SAFE_BB_GRAPH
  · rw [notify_traversing_syscall_off env observed dsbb_tag syscall_number hg]
    simp [written_links]
  · by_cases hobs : (dsbb_tag, syscall_number) ∈ observed
    · rw [notify_traversing_syscall_again env observed dsbb_tag syscall_number hg hobs]
      simp only [written_links_append]
      split_ifs <;> simp_all [written_links, call_event.is_write_link]
    · rw [notify_traversing_syscall_first env observed dsbb_tag syscall_number hg hobs]
      simp only [written_links_append]
      split_ifs <;> simp_all [written_links, call_event.is_write_link]

theorem notify_traversing_syscall_queued (env : graph_env) (observed : List (Nat × Int))
    (dsbb_tag : Nat) (syscall_number : Int) :
    queued_pending_edges
      (notify_traversing_syscall env observed dsbb_tag syscall_number).2 = [] := by
  have hf := (flush_output_buffers_no_edge env).2
  cases hg : env.CROWD_SAFE_BB_GRAPH
  · rw [notify_traversing_syscall_off env observed dsbb_tag syscall_number hg]
    simp [queued_pending_edges]
  · by_cases hobs : (dsbb_tag, syscall_number) ∈ observed
    · rw [notify_traversing_syscall_again env observed dsbb_tag syscall_number hg hobs]
      simp only [queued_pending_edges_append]
      split_ifs <;> simp_all [queued_pending_edges, call_event.is_add_pending_edge]
    · rw [notify_traversing_syscall_first env observed dsbb_tag syscall_number hg hobs]
      simp only [queued_pending_edges_append]
      split_ifs <;> simp_all [queued_pending_edges, call_event.is_add_pending_edge]

/-! ## Claims on the return verification -/

/-- C1: in a return-pending, not new-path dispatch on a shadow stack whose top
frame is a pushed frame (base pointer not the sentinel), when `ibp_to_tag`
equals the top frame's return address and the stack pointer equals its base
pointer, the return is matched-address, exactly the top frame is popped (the
depth decreases by one, `unwind_count` stays 0) and the unexpected_return bit
is what it was before the call. -/
theorem C1_matched_return_pops_one_frame (env : dispatch_env) (dcontext : dcontext_t)
    (top : shadow_stack_frame_t) (below : List shadow_stack_frame_t)
    (hgraph : env.CROWD_SAFE_BB_GRAPH = true)
    (hnew : dcontext.csd.ibp_data.ibp_meta.new_path = false)
    (hpend : dcontext.csd.ibp_data.ibp_meta.stack_pending = true)
    (hstack : dcontext.csd.shadow_stack = top :: below)
    (hpushed : top.base_pointer ≠ env.SHADOW_STACK_SENTINEL)
    (hdest : dcontext.csd.ibp_data.ibp_to_tag = top.return_address)
    (_hxsp : dcontext.xsp = top.base_pointer) :
    ∃ r, crowd_safe_dispatch env dcontext = some r ∧
      r.exit = dispatch_exit.returned ∧
      r.matched_address = true ∧
      r.csd.shadow_stack = below ∧
      r.csd.shadow_stack.length + 1 = dcontext.csd.shadow_stack.length ∧
      r.unwind_count = 0 ∧
      r.csd.ibp_data.ibp_meta.unexpected_return =
        dcontext.csd.ibp_data.ibp_meta.unexpected_return := by
  rw [crowd_safe_dispatch_stack_pending env dcontext hgraph hnew hpend,
    stack_pending_block_matched env dcontext.next_tag dcontext.xsp
      ⟨dispatch_prologue dcontext.csd.ibp_data, dcontext.csd.shadow_stack,
        dcontext.csd.shadow_stack_miss_frame⟩ top below hstack hpushed
      (Or.inl (by simpa using hdest))]
  refine ⟨_, rfl, rfl, rfl, rfl, ?_, rfl, ?_⟩
  · simp [hstack]
  · simp

/-- Witness of C1: push `(bp = 0x1000, ra = 0xA)` on the sentinel, then verify the
return to `0xA` with stack pointer `0x1000`. -/
theorem C1_matched_return_witness :
    ∃ r, crowd_safe_dispatch scenario_env
        (scenario_return [⟨0x1000, 0xA⟩, scenario_sentinel] 0xA 0x1000) = some r ∧
      r.exit = dispatch_exit.returned ∧
      r.matched_address = true ∧
      r.csd.shadow_stack = [scenario_sentinel] ∧
      r.csd.shadow_stack.length + 1 =
        (scenario_return [⟨0x1000, 0xA⟩, scenario_sentinel] 0xA 0x1000).csd.shadow_stack.length ∧
      r.unwind_count = 0 ∧
      r.csd.ibp_data.ibp_meta.unexpected_return =
        (scenario_return [⟨0x1000, 0xA⟩, scenario_sentinel]
          0xA 0x1000).csd.ibp_data.ibp_meta.unexpected_return :=
  C1_matched_return_pops_one_frame scenario_env
    (scenario_return [⟨0x1000, 0xA⟩, scenario_sentinel] 0xA 0x1000)
    ⟨0x1000, 0xA⟩ [scenario_sentinel] rfl rfl rfl rfl (by decide) rfl rfl

/-- C2 as stated fails: with frames `(0x1000, 0xA)` then `(0xF00, 0xB)` pushed on the
sentinel and a return to `0xA` at stack pointer `0x1000`, the verification
reports matched-address with `unwind_count = 1` (not 2), and the matching frame
`(0x1000, 0xA)` is still on the stack, as its top. -/
theorem C2_counterexample :
    ∃ r, crowd_safe_dispatch scenario_env
        (scenario_return [⟨0xF00, 0xB⟩, ⟨0x1000, 0xA⟩, scenario_sentinel] 0xA 0x1000) = some r ∧
      r.matched_address = true ∧
      r.unwind_count = 1 ∧ r.unwind_count ≠ 2 ∧
      r.csd.shadow_stack = [⟨0x1000, 0xA⟩, scenario_sentinel] :=
  ⟨_, rfl, rfl, rfl, by decide, rfl⟩

/-- C2 amended: in a return-pending dispatch where neither `ibp_to_tag` nor
`next_tag` is the top frame's return address, the stack pointer is within 0x1000
of the top frame's base pointer, the top frame and the frames `skipped` under it
are unwindable (base pointer below the stack pointer, not the sentinel) and the
frame `matching` right under them is the first compared frame whose return
address is `ibp_to_tag`: the verification reports matched-address (an expected
multi-frame return, unexpected_return not touched), `unwind_count` is the
number of frames above the matching frame, exactly those frames are popped,
and the matching frame stays on the stack as the new top. -/
theorem C2_multi_frame_return (env : dispatch_env) (dcontext : dcontext_t)
    (top : shadow_stack_frame_t) (skipped : List shadow_stack_frame_t)
    (matching : shadow_stack_frame_t) (rest : List shadow_stack_frame_t)
    (hgraph : env.CROWD_SAFE_BB_GRAPH = true)
    (hnew : dcontext.csd.ibp_data.ibp_meta.new_path = false)
    (hpend : dcontext.csd.ibp_data.ibp_meta.stack_pending = true)
    (hstack : dcontext.csd.shadow_stack = top :: (skipped ++ matching :: rest))
    (hdiff : dcontext.csd.ibp_data.ibp_to_tag ≠ top.return_address)
    (hnext : dcontext.next_tag ≠ top.return_address)
    (hnear : |(dcontext.xsp : Int) - (top.base_pointer : Int)| ≤ 0x1000)
    (hunwind : ∀ f ∈ top :: skipped,
      f.base_pointer < dcontext.xsp ∧ f.base_pointer ≠ env.SHADOW_STACK_SENTINEL)
    (hfirst : ∀ f ∈ skipped, f.return_address ≠ dcontext.csd.ibp_data.ibp_to_tag)
    (hmatch : matching.return_address = dcontext.csd.ibp_data.ibp_to_tag) :
    ∃ r, crowd_safe_dispatch env dcontext = some r ∧
      r.exit = dispatch_exit.returned ∧
      r.matched_address = true ∧
      r.context_switch = false ∧
      r.unwind_count = skipped.length + 1 ∧
      r.csd.shadow_stack = matching :: rest ∧
      r.csd.ibp_data.ibp_meta.unexpected_return =
        dcontext.csd.ibp_data.ibp_meta.unexpected_return := by
  have hd : stack_delta dcontext.xsp top.base_pointer ≤ 0x1000 := by
    have h := abs_le.mp hnear
    exact stack_delta_near _ _ ⟨h.2, by omega⟩
  have hloop := unwind_loop_match env.SHADOW_STACK_SENTINEL dcontext.xsp
    dcontext.csd.ibp_data.ibp_to_tag matching rest hmatch.symm (top :: skipped) 0 (by simp)
    hunwind (fun f hf => (hfirst f (by simpa using hf)).symm)
  rw [crowd_safe_dispatch_stack_pending env dcontext hgraph hnew hpend,
    stack_pending_block_unwind env dcontext.next_tag dcontext.xsp
      ⟨dispatch_prologue dcontext.csd.ibp_data, dcontext.csd.shadow_stack,
        dcontext.csd.shadow_stack_miss_frame⟩ top (skipped ++ matching :: rest) hstack
      (Or.inr ⟨by simpa using hdiff, hnext⟩) hd (matching :: rest) (0 + (top :: skipped).length)
      true (by simpa using hloop)]
  refine ⟨_, rfl, rfl, rfl, rfl, ?_, rfl, ?_⟩
  · simp
  · simp

/-- Witness of C2 amended: frames `(0x1000, 0xA)` then `(0xF00, 0xB)`, return to `0xA`
at stack pointer `0x1000`: one frame is unwound and `(0x1000, 0xA)` is the new top. -/
theorem C2_multi_frame_return_witness :
    ∃ r, crowd_safe_dispatch scenario_env
        (scenario_return [⟨0xF00, 0xB⟩, ⟨0x1000, 0xA⟩, scenario_sentinel] 0xA 0x1000) = some r ∧
      r.exit = dispatch_exit.returned ∧
      r.matched_address = true ∧
      r.context_switch = false ∧
      r.unwind_count = ([] : List shadow_stack_frame_t).length + 1 ∧
      r.csd.shadow_stack = ⟨0x1000, 0xA⟩ :: [scenario_sentinel] ∧
      r.csd.ibp_data.ibp_meta.unexpected_return =
        (scenario_return [⟨0xF00, 0xB⟩, ⟨0x1000, 0xA⟩, scenario_sentinel]
          0xA 0x1000).csd.ibp_data.ibp_meta.unexpected_return :=
  C2_multi_frame_return scenario_env
    (scenario_return [⟨0xF00, 0xB⟩, ⟨0x1000, 0xA⟩, scenario_sentinel] 0xA 0x1000)
    ⟨0xF00, 0xB⟩ [] ⟨0x1000, 0xA⟩ [scenario_sentinel] rfl rfl rfl rfl (by decide) (by decide)
    (by decide) (by decide) (by simp) rfl

/-- C3 as stated fails: on the stack `(0x1000, 0xA)`, `(0xF00, 0xB)` a return to `0xA`
with stack pointer `0x3000` has `stack_delta = 0x2100 > 0x1000` and is classified
as a context switch, and the unexpected_return bit, clear before the call, is
set by it. -/
theorem C3_counterexample :
    stack_delta 0x3000 0xF00 > 0x1000 ∧
    (scenario_return [⟨0xF00, 0xB⟩, ⟨0x1000, 0xA⟩, scenario_sentinel]
      0xA 0x3000).csd.ibp_data.ibp_meta.unexpected_return = false ∧
    ∃ r, crowd_safe_dispatch scenario_env
        (scenario_return [⟨0xF00, 0xB⟩, ⟨0x1000, 0xA⟩, scenario_sentinel] 0xA 0x3000) = some r ∧
      r.context_switch = true ∧
      r.csd.ibp_data.ibp_meta.unexpected_return = true :=
  ⟨by decide, rfl, _, rfl, rfl, rfl⟩

/-- C3 amended: in a return-pending dispatch whose top frame is not the sentinel,
where neither `ibp_to_tag` nor `next_tag` is the top frame's return address and
`stack_delta` (as the code computes it) exceeds 0x1000, the return is classified
as a context switch: no frame is unwound, the shadow stack is left as it was,
matched-address is false, and the unexpected_return bit of the transition is
set, as for every return that is not expected. -/
theorem C3_context_switch_sets_unexpected_return (env : dispatch_env) (dcontext : dcontext_t)
    (top : shadow_stack_frame_t) (below : List shadow_stack_frame_t)
    (hgraph : env.CROWD_SAFE_BB_GRAPH = true)
    (hnew : dcontext.csd.ibp_data.ibp_meta.new_path = false)
    (hpend : dcontext.csd.ibp_data.ibp_meta.stack_pending = true)
    (hstack : dcontext.csd.shadow_stack = top :: below)
    (_hpushed : top.base_pointer ≠ env.SHADOW_STACK_SENTINEL)
    (hdiff : dcontext.csd.ibp_data.ibp_to_tag ≠ top.return_address)
    (hnext : dcontext.next_tag ≠ top.return_address)
    (hdelta : stack_delta dcontext.xsp top.base_pointer > 0x1000) :
    ∃ r, crowd_safe_dispatch env dcontext = some r ∧
      r.exit = dispatch_exit.returned ∧
      r.context_switch = true ∧
      r.matched_address = false ∧
      r.unwind_count = 0 ∧
      r.csd.shadow_stack = dcontext.csd.shadow_stack ∧
      r.csd.ibp_data.ibp_meta.unexpected_return = true := by
  rw [crowd_safe_dispatch_stack_pending env dcontext hgraph hnew hpend,
    stack_pending_block_context_switch env dcontext.next_tag dcontext.xsp
      ⟨dispatch_prologue dcontext.csd.ibp_data, dcontext.csd.shadow_stack,
        dcontext.csd.shadow_stack_miss_frame⟩ top below hstack
      (Or.inr ⟨by simpa using hdiff, hnext⟩) hdelta]
  exact ⟨_, rfl, rfl, rfl, rfl, rfl, rfl, rfl⟩

/-- Witness of C3 amended: the context switch of the counterexample. -/
theorem C3_context_switch_witness :
    ∃ r, crowd_safe_dispatch scenario_env
        (scenario_return [⟨0xF00, 0xB⟩, ⟨0x1000, 0xA⟩, scenario_sentinel] 0xA 0x3000) = some r ∧
      r.exit = dispatch_exit.returned ∧
      r.context_switch = true ∧
      r.matched_address = false ∧
      r.unwind_count = 0 ∧
      r.csd.shadow_stack =
        (scenario_return [⟨0xF00, 0xB⟩, ⟨0x1000, 0xA⟩, scenario_sentinel]
          0xA 0x3000).csd.shadow_stack ∧
      r.csd.ibp_data.ibp_meta.unexpected_return = true :=
  C3_context_switch_sets_unexpected_return scenario_env
    (scenario_return [⟨0xF00, 0xB⟩, ⟨0x1000, 0xA⟩, scenario_sentinel] 0xA 0x3000)
    ⟨0xF00, 0xB⟩ [⟨0x1000, 0xA⟩, scenario_sentinel] rfl rfl rfl rfl (by decide) (by decide)
    (by decide) (by decide)

/-- C4: in a return-pending dispatch on a shadow stack with the sentinel at its
bottom, whose top frame is not the sentinel, where neither `ibp_to_tag` nor
`next_tag` is the top frame's return address, the stack pointer is within 0x1000
of the top frame's base pointer, and no frame reached by the unwind loop (a
frame lying right under a run of unwindable frames that starts at the top) has
return address `ibp_to_tag`: dispatch returns with the unexpected_return bit
set, and the return is neither matched nor a context switch. -/
theorem C4_unexpected_return_flagged (env : dispatch_env) (dcontext : dcontext_t)
    (top : shadow_stack_frame_t) (below above : List shadow_stack_frame_t)
    (bottom : shadow_stack_frame_t)
    (hgraph : env.CROWD_SAFE_BB_GRAPH = true)
    (hnew : dcontext.csd.ibp_data.ibp_meta.new_path = false)
    (hpend : dcontext.csd.ibp_data.ibp_meta.stack_pending = true)
    (hstack : dcontext.csd.shadow_stack = top :: below)
    (hwf : dcontext.csd.shadow_stack = above ++ [bottom])
    (hbottom : bottom.base_pointer = env.SHADOW_STACK_SENTINEL)
    (_hpushed : top.base_pointer ≠ env.SHADOW_STACK_SENTINEL)
    (hdiff : dcontext.csd.ibp_data.ibp_to_tag ≠ top.return_address)
    (hnext : dcontext.next_tag ≠ top.return_address)
    (hnear : |(dcontext.xsp : Int) - (top.base_pointer : Int)| ≤ 0x1000)
    (hnone : ∀ popped g rest, dcontext.csd.shadow_stack = popped ++ g :: rest → popped ≠ [] →
      (∀ f ∈ popped, f.base_pointer < dcontext.xsp ∧
        f.base_pointer ≠ env.SHADOW_STACK_SENTINEL) →
      g.return_address ≠ dcontext.csd.ibp_data.ibp_to_tag) :
    ∃ r, crowd_safe_dispatch env dcontext = some r ∧
      r.exit = dispatch_exit.returned ∧
      r.csd.ibp_data.ibp_meta.unexpected_return = true ∧
      r.matched_address = false ∧
      r.context_switch = false := by
  have hd : stack_delta dcontext.xsp top.base_pointer ≤ 0x1000 := by
    have h := abs_le.mp hnear
    exact stack_delta_near _ _ ⟨h.2, by omega⟩
  have hsent : ∃ f ∈ top :: below, f.base_pointer = env.SHADOW_STACK_SENTINEL := by
    rw [← hstack, hwf]
    exact ⟨bottom, by simp, hbottom⟩
  obtain ⟨popped, rest, hloop, -, -, -⟩ :=
    unwind_loop_miss env.SHADOW_STACK_SENTINEL dcontext.xsp dcontext.csd.ibp_data.ibp_to_tag
      (top :: below) 0 hsent
      (fun p g r heq hp hall => (hnone p g r (by rw [hstack, heq]) hp hall).symm)
  rw [crowd_safe_dispatch_stack_pending env dcontext hgraph hnew hpend,
    stack_pending_block_unwind env dcontext.next_tag dcontext.xsp
      ⟨dispatch_prologue dcontext.csd.ibp_data, dcontext.csd.shadow_stack,
        dcontext.csd.shadow_stack_miss_frame⟩ top below hstack
      (Or.inr ⟨by simpa using hdiff, hnext⟩) hd rest (0 + popped.length)
      false (by simpa using hloop)]
  exact ⟨_, rfl, rfl, rfl, rfl, rfl⟩

/-- Witness of C4: on the stack `(0x1000, 0xA)`, `(0xF00, 0xB)` a return to `0xC` with
stack pointer `0x1000` matches no frame. -/
theorem C4_unexpected_return_witness :
    ∃ r, crowd_safe_dispatch scenario_env
        (scenario_return [⟨0xF00, 0xB⟩, ⟨0x1000, 0xA⟩, scenario_sentinel] 0xC 0x1000) = some r ∧
      r.exit = dispatch_exit.returned ∧
      r.csd.ibp_data.ibp_meta.unexpected_return = true ∧
      r.matched_address = false ∧
      r.context_switch = false :=
  C4_unexpected_return_flagged scenario_env
    (scenario_return [⟨0xF00, 0xB⟩, ⟨0x1000, 0xA⟩, scenario_sentinel] 0xC 0x1000)
    ⟨0xF00, 0xB⟩ [⟨0x1000, 0xA⟩, scenario_sentinel] [⟨0xF00, 0xB⟩, ⟨0x1000, 0xA⟩]
    scenario_sentinel rfl rfl rfl rfl rfl rfl (by decide) (by decide) (by decide) (by decide)
    (by
      intro popped g rest heq _ _
      have hg : g ∈ [(⟨0xF00, 0xB⟩ : shadow_stack_frame_t), ⟨0x1000, 0xA⟩, scenario_sentinel] := by
        have : g ∈ popped ++ g :: rest := by simp
        rw [← heq] at this
        exact this
      simp only [List.mem_cons, List.mem_singleton, List.not_mem_nil, or_false] at hg
      rcases hg with rfl | rfl | rfl <;> decide)

/-- C5: on a shadow stack whose bottom slot is the sentinel frame, for every stack
pointer and destination, (1) the unwind loop ends, after a number of iterations
(its `unwind_count`) that is at most the number of frames, having popped only
frames whose base pointer is not the sentinel, with the sentinel frame still the
bottom of the stack; (2) the whole return verification of a return-pending
dispatch returns, pops only frames whose base pointer is not the sentinel,
keeps the sentinel frame as the bottom, counts at most the number of frames,
and pops nothing at all when the top frame is itself the sentinel. -/
theorem C5_unwind_terminates_and_keeps_sentinel (env : dispatch_env) (dcontext : dcontext_t)
    (above : List shadow_stack_frame_t) (bottom : shadow_stack_frame_t)
    (hgraph : env.CROWD_SAFE_BB_GRAPH = true)
    (hnew : dcontext.csd.ibp_data.ibp_meta.new_path = false)
    (hpend : dcontext.csd.ibp_data.ibp_meta.stack_pending = true)
    (hwf : dcontext.csd.shadow_stack = above ++ [bottom])
    (hbottom : bottom.base_pointer = env.SHADOW_STACK_SENTINEL) :
    (∃ popped kept expected,
      unwind_loop env.SHADOW_STACK_SENTINEL dcontext.xsp dcontext.csd.ibp_data.ibp_to_tag
        dcontext.csd.shadow_stack 0 = some (kept ++ [bottom], popped.length, expected) ∧
      dcontext.csd.shadow_stack = popped ++ (kept ++ [bottom]) ∧
      popped.length ≤ dcontext.csd.shadow_stack.length ∧
      ∀ f ∈ popped, f.base_pointer ≠ env.SHADOW_STACK_SENTINEL) ∧
    (∃ r popped kept,
      crowd_safe_dispatch env dcontext = some r ∧
      r.exit = dispatch_exit.returned ∧
      r.csd.shadow_stack = kept ++ [bottom] ∧
      dcontext.csd.shadow_stack = popped ++ r.csd.shadow_stack ∧
      r.unwind_count ≤ dcontext.csd.shadow_stack.length ∧
      (∀ f ∈ popped, f.base_pointer ≠ env.SHADOW_STACK_SENTINEL) ∧
      (∀ top below, dcontext.csd.shadow_stack = top :: below →
        top.base_pointer = env.SHADOW_STACK_SENTINEL →
        r.csd.shadow_stack = dcontext.csd.shadow_stack ∧ r.unwind_count = 0)) := by
  have hsent : ∃ f ∈ dcontext.csd.shadow_stack,
      f.base_pointer = env.SHADOW_STACK_SENTINEL := by
    rw [hwf]
    exact ⟨bottom, by simp, hbottom⟩
  obtain ⟨popped, rest, e, hloop, hsplit, hrest, hpop⟩ :=
    unwind_loop_total env.SHADOW_STACK_SENTINEL dcontext.xsp dcontext.csd.ibp_data.ibp_to_tag
      dcontext.csd.shadow_stack 0 hsent
  obtain ⟨kept, hkept, -⟩ := bottom_kept above popped rest bottom (by rw [← hwf, hsplit]) hrest
  have hlen : popped.length ≤ dcontext.csd.shadow_stack.length := by
    rw [hsplit, List.length_append]
    exact Nat.le_add_right _ _
  rw [Nat.zero_add] at hloop
  subst hkept
  refine ⟨⟨popped, kept, e, hloop, hsplit, hlen, fun f hf => (hpop f hf).2⟩, ?_⟩
  rw [crowd_safe_dispatch_stack_pending env dcontext hgraph hnew hpend]
  -- the stack is not empty
  obtain ⟨top, below, hstack⟩ : ∃ top below, dcontext.csd.shadow_stack = top :: below := by
    cases hs : dcontext.csd.shadow_stack with
    | nil => rw [hs] at hwf; simp at hwf
    | cons a l => exact ⟨a, l, rfl⟩
  by_cases hmatch : top.base_pointer ≠ env.SHADOW_STACK_SENTINEL ∧
      (dcontext.csd.ibp_data.ibp_to_tag = top.return_address ∨
        dcontext.next_tag = top.return_address)
  · -- lines 273-281: the top frame, not the sentinel, is popped
    obtain ⟨hpushed, hdest⟩ := hmatch
    rw [stack_pending_block_matched env dcontext.next_tag dcontext.xsp
      ⟨dispatch_prologue dcontext.csd.ibp_data, dcontext.csd.shadow_stack,
        dcontext.csd.shadow_stack_miss_frame⟩ top below hstack hpushed
      (by simpa using hdest)]
    have hbelow : below ≠ [] := by
      rintro rfl
      rw [hstack] at hwf
      cases above with
      | nil =>
        simp only [List.nil_append, List.cons.injEq, and_true] at hwf
        exact hpushed (hwf ▸ hbottom)
      | cons a l => simp at hwf
    obtain ⟨kept2, hk2, -⟩ := bottom_kept above [top] below bottom (by rw [← hwf, hstack]; rfl)
      hbelow
    refine ⟨_, [top], kept2, rfl, rfl, hk2, by rw [hstack]; rfl, Nat.zero_le _, ?_, ?_⟩
    · intro f hf
      rw [List.mem_singleton] at hf
      rw [hf]
      exact hpushed
    · intro top2 below2 heq hs
      rw [hstack] at heq
      injection heq with h1 _
      exact absurd (h1 ▸ hs) hpushed
  · -- lines 283-305
    have hmiss : top.base_pointer = env.SHADOW_STACK_SENTINEL ∨
        ((dispatch_prologue dcontext.csd.ibp_data).ibp_to_tag ≠ top.return_address ∧
          dcontext.next_tag ≠ top.return_address) := by
      by_cases hs : top.base_pointer = env.SHADOW_STACK_SENTINEL
      · exact Or.inl hs
      · refine Or.inr ⟨fun h => hmatch ⟨hs, Or.inl (by simpa using h)⟩,
          fun h => hmatch ⟨hs, Or.inr h⟩⟩
    by_cases hdelta : stack_delta dcontext.xsp top.base_pointer > 0x1000
    · rw [stack_pending_block_context_switch env dcontext.next_tag dcontext.xsp
        ⟨dispatch_prologue dcontext.csd.ibp_data, dcontext.csd.shadow_stack,
          dcontext.csd.shadow_stack_miss_frame⟩ top below hstack hmiss hdelta]
      exact ⟨_, [], above, rfl, rfl, hwf, rfl, Nat.zero_le _, by simp,
        fun _ _ _ _ => ⟨rfl, rfl⟩⟩
    · rw [stack_pending_block_unwind env dcontext.next_tag dcontext.xsp
        ⟨dispatch_prologue dcontext.csd.ibp_data, dcontext.csd.shadow_stack,
          dcontext.csd.shadow_stack_miss_frame⟩ top below hstack hmiss (not_lt.mp hdelta)
        (kept ++ [bottom]) popped.length e (by
          rw [← hstack]
          simpa using hloop)]
      refine ⟨_, popped, kept, rfl, rfl, rfl, hsplit, hlen, fun f hf => (hpop f hf).2, ?_⟩
      intro top2 below2 heq hs
      rw [hstack] at heq
      injection heq with h1 _
      subst h1
      have hstop := unwind_loop_stop env.SHADOW_STACK_SENTINEL dcontext.xsp
        dcontext.csd.ibp_data.ibp_to_tag 0 top below (fun h => h.2 hs)
      rw [hstack, hstop] at hloop
      simp only [Option.some.injEq, Prod.mk.injEq] at hloop
      obtain ⟨h1, h2, -⟩ := hloop
      refine ⟨?_, h2.symm⟩
      show kept ++ [bottom] = dcontext.csd.shadow_stack
      rw [hstack, h1]

/-- Witness of C5: the stack `(0x1000, 0xA)`, `(0xF00, 0xB)` on the sentinel, a return
to `0xC` with stack pointer `0x1000`. -/
theorem C5_unwind_terminates_witness :
    (∃ popped kept expected,
      unwind_loop scenario_env.SHADOW_STACK_SENTINEL
        (scenario_return [⟨0xF00, 0xB⟩, ⟨0x1000, 0xA⟩, scenario_sentinel] 0xC 0x1000).xsp
        (scenario_return [⟨0xF00, 0xB⟩, ⟨0x1000, 0xA⟩, scenario_sentinel]
          0xC 0x1000).csd.ibp_data.ibp_to_tag
        (scenario_return [⟨0xF00, 0xB⟩, ⟨0x1000, 0xA⟩, scenario_sentinel]
          0xC 0x1000).csd.shadow_stack 0 =
          some (kept ++ [scenario_sentinel], popped.length, expected) ∧
      (scenario_return [⟨0xF00, 0xB⟩, ⟨0x1000, 0xA⟩, scenario_sentinel]
        0xC 0x1000).csd.shadow_stack = popped ++ (kept ++ [scenario_sentinel]) ∧
      popped.length ≤ (scenario_return [⟨0xF00, 0xB⟩, ⟨0x1000, 0xA⟩, scenario_sentinel]
        0xC 0x1000).csd.shadow_stack.length ∧
      ∀ f ∈ popped, f.base_pointer ≠ scenario_env.SHADOW_STACK_SENTINEL) ∧
    (∃ r popped kept,
      crowd_safe_dispatch scenario_env
        (scenario_return [⟨0xF00, 0xB⟩, ⟨0x1000, 0xA⟩, scenario_sentinel] 0xC 0x1000) = some r ∧
      r.exit = dispatch_exit.returned ∧
      r.csd.shadow_stack = kept ++ [scenario_sentinel] ∧
      (scenario_return [⟨0xF00, 0xB⟩, ⟨0x1000, 0xA⟩, scenario_sentinel]
        0xC 0x1000).csd.shadow_stack = popped ++ r.csd.shadow_stack ∧
      r.unwind_count ≤ (scenario_return [⟨0xF00, 0xB⟩, ⟨0x1000, 0xA⟩, scenario_sentinel]
        0xC 0x1000).csd.shadow_stack.length ∧
      (∀ f ∈ popped, f.base_pointer ≠ scenario_env.SHADOW_STACK_SENTINEL) ∧
      (∀ top below, (scenario_return [⟨0xF00, 0xB⟩, ⟨0x1000, 0xA⟩, scenario_sentinel]
          0xC 0x1000).csd.shadow_stack = top :: below →
        top.base_pointer = scenario_env.SHADOW_STACK_SENTINEL →
        r.csd.shadow_stack = (scenario_return [⟨0xF00, 0xB⟩, ⟨0x1000, 0xA⟩, scenario_sentinel]
          0xC 0x1000).csd.shadow_stack ∧ r.unwind_count = 0)) :=
  C5_unwind_terminates_and_keeps_sentinel scenario_env
    (scenario_return [⟨0xF00, 0xB⟩, ⟨0x1000, 0xA⟩, scenario_sentinel] 0xC 0x1000)
    [⟨0xF00, 0xB⟩, ⟨0x1000, 0xA⟩] scenario_sentinel rfl rfl rfl rfl rfl

/-! ## Claims on the edge recorder and the syscall observer -/

/-- C6 as stated fails: with the source block `X` present but not live and the
destination `Y` live, `notify_traversing_fragments` writes the edge (and queues
nothing); and `notify_traversing_syscall` writes its edge to a syscall node
that has no block state at all. -/
theorem C6_counterexample :
    (scenario_graph (some ⟨7, false⟩) (some ⟨9, true⟩)
      module_type.module_type_normal).get_bb_state 0x401000 = some ⟨7, false⟩ ∧
    written_links (notify_traversing_fragments
      (scenario_graph (some ⟨7, false⟩) (some ⟨9, true⟩) module_type.module_type_normal)
      0x401000 0x402000 0 graph_edge_type.direct_edge) =
      [call_event.write_link 0x401000 0x402000 (some ⟨7, false⟩) (some ⟨9, true⟩)
        ⟨1, module_type.module_type_normal⟩ ⟨1, module_type.module_type_normal⟩ 0
        graph_edge_type.direct_edge] ∧
    queued_pending_edges (notify_traversing_fragments
      (scenario_graph (some ⟨7, false⟩) (some ⟨9, true⟩) module_type.module_type_normal)
      0x401000 0x402000 0 graph_edge_type.direct_edge) = [] ∧
    written_links (notify_traversing_syscall
      (scenario_graph (some ⟨7, false⟩) (some ⟨9, true⟩) module_type.module_type_normal)
      [] 0x401000 60).2 =
      [call_event.write_link 0x401000 0x103c (some ⟨7, false⟩) none
        ⟨1, module_type.module_type_normal⟩ ⟨0, module_type.module_type_system⟩ 0
        graph_edge_type.indirect_edge] := by
  refine ⟨rfl, ?_, ?_, ?_⟩ <;> decide

/-- C6 amended: `notify_traversing_fragments` writes an edge (`write_link`) only if
the destination block is live (the liveness of the source is not checked), and
then it writes exactly that edge, once, and queues nothing; when the
destination is missing or not live it writes nothing and queues the edge as
pending, unless both modules are black-box, in which case it queues nothing;
no call both writes and queues.  `notify_traversing_syscall` never queues a
pending edge and writes its edge exactly on a first observation, without any
liveness check. -/
theorem C6_edge_written_only_to_live_destination (env : graph_env)
    (from_pc to_pc exit_ordinal : Nat) (edge_type : graph_edge_type)
    (observed : List (Nat × Int)) (dsbb_tag : Nat) (syscall_number : Int) :
    (written_links (notify_traversing_fragments env from_pc to_pc exit_ordinal edge_type) ≠ [] →
      state_missing_or_inactive (env.get_bb_state to_pc) = false ∧
      written_links (notify_traversing_fragments env from_pc to_pc exit_ordinal edge_type) =
        [call_event.write_link from_pc to_pc (env.get_bb_state from_pc)
           (env.get_bb_state to_pc) (env.get_module_for_address from_pc)
           (env.get_module_for_address to_pc) exit_ordinal edge_type]) ∧
    (env.CROWD_SAFE_BB_GRAPH = true →
      state_missing_or_inactive (env.get_bb_state to_pc) = true →
      written_links (notify_traversing_fragments env from_pc to_pc exit_ordinal edge_type) = [] ∧
      queued_pending_edges
        (notify_traversing_fragments env from_pc to_pc exit_ordinal edge_type) =
        if IS_BLACK_BOX (env.get_module_for_address from_pc) = true ∧
            IS_BLACK_BOX (env.get_module_for_address to_pc) = true then []
        else
          [call_event.add_pending_edge from_pc to_pc exit_ordinal edge_type
             (env.get_module_for_address from_pc) (env.get_module_for_address to_pc) true]) ∧
    (written_links (notify_traversing_fragments env from_pc to_pc exit_ordinal edge_type) = [] ∨
      queued_pending_edges
        (notify_traversing_fragments env from_pc to_pc exit_ordinal edge_type) = []) ∧
    queued_pending_edges
      (notify_traversing_syscall env observed dsbb_tag syscall_number).2 = [] ∧
    written_links (notify_traversing_syscall env observed dsbb_tag syscall_number).2 =
      (if env.CROWD_SAFE_BB_GRAPH = true ∧ (dsbb_tag, syscall_number) ∉ observed then
        [call_event.write_link dsbb_tag (syscall_singleton_pc env syscall_number)
           (env.get_bb_state dsbb_tag)
           (env.get_bb_state (syscall_singleton_pc env syscall_number))
           (env.get_module_for_address dsbb_tag) env.system_module 0
           graph_edge_type.indirect_edge]
      else []) := by
  refine ⟨?_, ?_, ?_, notify_traversing_syscall_queued env observed dsbb_tag syscall_number,
    notify_traversing_syscall_written env observed dsbb_tag syscall_number⟩
  · rw [notify_traversing_fragments_written]
    split_ifs with h
    · exact fun _ => ⟨h.2.1, rfl⟩
    · exact fun hne => absurd rfl hne
  · intro hg hs
    rw [notify_traversing_fragments_written, notify_traversing_fragments_queued]
    refine ⟨?_, ?_⟩
    · rw [if_neg]
      rintro ⟨-, h2, -⟩
      rw [hs] at h2
      cases h2
    · split_ifs <;> simp_all
  · rw [notify_traversing_fragments_written, notify_traversing_fragments_queued]
    by_cases hs : state_missing_or_inactive (env.get_bb_state to_pc) = true
    · left
      rw [if_neg]
      rintro ⟨-, h2, -⟩
      rw [hs] at h2
      cases h2
    · right
      rw [if_neg]
      rintro ⟨-, h2, -⟩
      exact hs h2

/-- Witness of C6 amended: with `X` inactive and `Y` live the edge `X -> Y` is written,
so `Y` is live, and it is the only edge written. -/
theorem C6_edge_written_witness :
    state_missing_or_inactive
      ((scenario_graph (some ⟨7, false⟩) (some ⟨9, true⟩)
        module_type.module_type_normal).get_bb_state 0x402000) = false ∧
    written_links (notify_traversing_fragments
      (scenario_graph (some ⟨7, false⟩) (some ⟨9, true⟩) module_type.module_type_normal)
      0x401000 0x402000 0 graph_edge_type.direct_edge) =
      [call_event.write_link 0x401000 0x402000
        ((scenario_graph (some ⟨7, false⟩) (some ⟨9, true⟩)
          module_type.module_type_normal).get_bb_state 0x401000)
        ((scenario_graph (some ⟨7, false⟩) (some ⟨9, true⟩)
          module_type.module_type_normal).get_bb_state 0x402000)
        ((scenario_graph (some ⟨7, false⟩) (some ⟨9, true⟩)
          module_type.module_type_normal).get_module_for_address 0x401000)
        ((scenario_graph (some ⟨7, false⟩) (some ⟨9, true⟩)
          module_type.module_type_normal).get_module_for_address 0x402000)
        0 graph_edge_type.direct_edge] :=
  (C6_edge_written_only_to_live_destination
    (scenario_graph (some ⟨7, false⟩) (some ⟨9, true⟩) module_type.module_type_normal)
    0x401000 0x402000 0 graph_edge_type.direct_edge [] 0x401000 60).1 (by decide)

/-- C7: when the state of `to` is missing or not live and the two modules are not
both black-box, `notify_traversing_fragments(from, to, exit_ordinal, edge_type)`
makes exactly these calls: the two module lookups, the lock, the two state
lookups, one `add_pending_edge(from, to, exit_ordinal, edge_type, from_module,
to_module, true)`, the unlock; then it returns.  So no edge is written and
exactly one pending edge is queued. -/
theorem C7_pending_on_non_live_target (env : graph_env) (from_pc to_pc exit_ordinal : Nat)
    (edge_type : graph_edge_type)
    (hgraph : env.CROWD_SAFE_BB_GRAPH = true)
    (hto : env.get_bb_state to_pc = none ∨
      ∃ s, env.get_bb_state to_pc = some s ∧ IS_BB_LIVE s = false)
    (hbox : ¬ (IS_BLACK_BOX (env.get_module_for_address from_pc) = true ∧
      IS_BLACK_BOX (env.get_module_for_address to_pc) = true)) :
    notify_traversing_fragments env from_pc to_pc exit_ordinal edge_type =
      [call_event.get_module_for_address from_pc, call_event.get_module_for_address to_pc,
       call_event.hashcode_lock_acquire, call_event.get_bb_state from_pc,
       call_event.get_bb_state to_pc,
       call_event.add_pending_edge from_pc to_pc exit_ordinal edge_type
         (env.get_module_for_address from_pc) (env.get_module_for_address to_pc) true,
       call_event.hashcode_lock_release] ∧
    written_links (notify_traversing_fragments env from_pc to_pc exit_ordinal edge_type) = [] ∧
    queued_pending_edges
      (notify_traversing_fragments env from_pc to_pc exit_ordinal edge_type) =
      [call_event.add_pending_edge from_pc to_pc exit_ordinal edge_type
         (env.get_module_for_address from_pc) (env.get_module_for_address to_pc) true] := by
  have hs : state_missing_or_inactive (env.get_bb_state to_pc) = true := by
    rcases hto with h | ⟨s, h, hl⟩
    · rw [h]; rfl
    · rw [h]; simp [state_missing_or_inactive, hl]
  have htrace := notify_traversing_fragments_not_live env from_pc to_pc exit_ordinal edge_type
    hgraph hs
  rw [if_neg hbox] at htrace
  rw [htrace]
  exact ⟨rfl, rfl, rfl⟩

/-- Witness of C7: `record_edge(X, Y, 0, indirect)` with `Y` not yet seen. -/
theorem C7_pending_on_non_live_target_witness :
    notify_traversing_fragments
        (scenario_graph (some ⟨7, true⟩) none module_type.module_type_normal)
        0x401000 0x402000 0 graph_edge_type.indirect_edge =
      [call_event.get_module_for_address 0x401000, call_event.get_module_for_address 0x402000,
       call_event.hashcode_lock_acquire, call_event.get_bb_state 0x401000,
       call_event.get_bb_state 0x402000,
       call_event.add_pending_edge 0x401000 0x402000 0 graph_edge_type.indirect_edge
         ((scenario_graph (some ⟨7, true⟩) none
           module_type.module_type_normal).get_module_for_address 0x401000)
         ((scenario_graph (some ⟨7, true⟩) none
           module_type.module_type_normal).get_module_for_address 0x402000) true,
       call_event.hashcode_lock_release] ∧
    written_links (notify_traversing_fragments
      (scenario_graph (some ⟨7, true⟩) none module_type.module_type_normal)
      0x401000 0x402000 0 graph_edge_type.indirect_edge) = [] ∧
    queued_pending_edges (notify_traversing_fragments
      (scenario_graph (some ⟨7, true⟩) none module_type.module_type_normal)
      0x401000 0x402000 0 graph_edge_type.indirect_edge) =
      [call_event.add_pending_edge 0x401000 0x402000 0 graph_edge_type.indirect_edge
         ((scenario_graph (some ⟨7, true⟩) none
           module_type.module_type_normal).get_module_for_address 0x401000)
         ((scenario_graph (some ⟨7, true⟩) none
           module_type.module_type_normal).get_module_for_address 0x402000) true] :=
  C7_pending_on_non_live_target
    (scenario_graph (some ⟨7, true⟩) none module_type.module_type_normal)
    0x401000 0x402000 0 graph_edge_type.indirect_edge rfl (Or.inl (by decide)) (by decide)

/-- C8 as stated fails: with both modules black-box, the source block `X` present
but inactive and the destination `Y` live, `notify_traversing_fragments` does not
drop the edge: it writes it. -/
theorem C8_counterexample :
    IS_BLACK_BOX ((scenario_graph (some ⟨7, false⟩) (some ⟨9, true⟩)
      module_type.module_type_black_box).get_module_for_address 0x401000) = true ∧
    IS_BLACK_BOX ((scenario_graph (some ⟨7, false⟩) (some ⟨9, true⟩)
      module_type.module_type_black_box).get_module_for_address 0x402000) = true ∧
    (scenario_graph (some ⟨7, false⟩) (some ⟨9, true⟩)
      module_type.module_type_black_box).get_bb_state 0x401000 = some ⟨7, false⟩ ∧
    written_links (notify_traversing_fragments
      (scenario_graph (some ⟨7, false⟩) (some ⟨9, true⟩) module_type.module_type_black_box)
      0x401000 0x402000 0 graph_edge_type.indirect_edge) =
      [call_event.write_link 0x401000 0x402000 (some ⟨7, false⟩) (some ⟨9, true⟩)
        ⟨1, module_type.module_type_black_box⟩ ⟨1, module_type.module_type_black_box⟩ 0
        graph_edge_type.indirect_edge] := by
  refine ⟨rfl, rfl, rfl, ?_⟩
  decide

/-- C8 amended: when the destination block is missing or inactive and both the
source module and the destination module are black-box,
`notify_traversing_fragments` drops the edge: it only takes the lock, looks the
two states up and releases the lock; nothing is written and no pending edge is
queued. -/
theorem C8_black_box_drop (env : graph_env) (from_pc to_pc exit_ordinal : Nat)
    (edge_type : graph_edge_type)
    (hgraph : env.CROWD_SAFE_BB_GRAPH = true)
    (hto : env.get_bb_state to_pc = none ∨
      ∃ s, env.get_bb_state to_pc = some s ∧ IS_BB_LIVE s = false)
    (hfrom : IS_BLACK_BOX (env.get_module_for_address from_pc) = true)
    (hdest : IS_BLACK_BOX (env.get_module_for_address to_pc) = true) :
    notify_traversing_fragments env from_pc to_pc exit_ordinal edge_type =
      [call_event.get_module_for_address from_pc, call_event.get_module_for_address to_pc,
       call_event.hashcode_lock_acquire, call_event.get_bb_state from_pc,
       call_event.get_bb_state to_pc, call_event.hashcode_lock_release] ∧
    written_links (notify_traversing_fragments env from_pc to_pc exit_ordinal edge_type) = [] ∧
    queued_pending_edges
      (notify_traversing_fragments env from_pc to_pc exit_ordinal edge_type) = [] := by
  have hs : state_missing_or_inactive (env.get_bb_state to_pc) = true := by
    rcases hto with h | ⟨s, h, hl⟩
    · rw [h]; rfl
    · rw [h]; simp [state_missing_or_inactive, hl]
  have htrace := notify_traversing_fragments_not_live env from_pc to_pc exit_ordinal edge_type
    hgraph hs
  rw [if_pos ⟨hfrom, hdest⟩] at htrace
  rw [htrace]
  exact ⟨rfl, rfl, rfl⟩

/-- Witness of C8 amended: both modules black-box, `Y` present but inactive. -/
theorem C8_black_box_drop_witness :
    notify_traversing_fragments
        (scenario_graph (some ⟨7, true⟩) (some ⟨9, false⟩) module_type.module_type_black_box)
        0x401000 0x402000 0 graph_edge_type.indirect_edge =
      [call_event.get_module_for_address 0x401000, call_event.get_module_for_address 0x402000,
       call_event.hashcode_lock_acquire, call_event.get_bb_state 0x401000,
       call_event.get_bb_state 0x402000, call_event.hashcode_lock_release] ∧
    written_links (notify_traversing_fragments
      (scenario_graph (some ⟨7, true⟩) (some ⟨9, false⟩) module_type.module_type_black_box)
      0x401000 0x402000 0 graph_edge_type.indirect_edge) = [] ∧
    queued_pending_edges (notify_traversing_fragments
      (scenario_graph (some ⟨7, true⟩) (some ⟨9, false⟩) module_type.module_type_black_box)
      0x401000 0x402000 0 graph_edge_type.indirect_edge) = [] :=
  C8_black_box_drop
    (scenario_graph (some ⟨7, true⟩) (some ⟨9, false⟩) module_type.module_type_black_box)
    0x401000 0x402000 0 graph_edge_type.indirect_edge rfl
    (Or.inr ⟨⟨9, false⟩, by decide, rfl⟩) rfl rfl

/-- C9 as stated fails: in the call that records the edge `X -> Y` between two live
blocks the lock is released after the liveness check and taken again before
`write_link`. -/
theorem C9_counterexample :
    notify_traversing_fragments
        (scenario_graph (some ⟨7, true⟩) (some ⟨9, true⟩) module_type.module_type_normal)
        0x401000 0x402000 0 graph_edge_type.indirect_edge =
      [call_event.get_module_for_address 0x401000, call_event.get_module_for_address 0x402000,
       call_event.hashcode_lock_acquire, call_event.get_bb_state 0x401000,
       call_event.get_bb_state 0x402000, call_event.hashcode_lock_release,
       call_event.hashcode_lock_acquire,
       call_event.write_link 0x401000 0x402000 (some ⟨7, true⟩) (some ⟨9, true⟩)
         ⟨1, module_type.module_type_normal⟩ ⟨1, module_type.module_type_normal⟩ 0
         graph_edge_type.indirect_edge,
       call_event.hashcode_lock_release] ∧
    lock_held_from_check_to_write 0x402000 (notify_traversing_fragments
      (scenario_graph (some ⟨7, true⟩) (some ⟨9, true⟩) module_type.module_type_normal)
      0x401000 0x402000 0 graph_edge_type.indirect_edge) = false := by
  constructor <;> decide

/-- C9 amended: in every call of `notify_traversing_fragments` that writes an edge,
the lock is held during the liveness check (lines 395-422) and held again
during `write_link` (lines 459-461), but it is released once in between (line
429) and, after the `UNIX` block, which takes no lock on this path, acquired
again: the trace is the checks, the release, the `UNIX` block, then acquire,
`write_link`, release. -/
theorem C9_lock_released_between_check_and_write (env : graph_env)
    (from_pc to_pc exit_ordinal : Nat) (edge_type : graph_edge_type)
    (hwrites : written_links
      (notify_traversing_fragments env from_pc to_pc exit_ordinal edge_type) ≠ []) :
    notify_traversing_fragments env from_pc to_pc exit_ordinal edge_type =
      [call_event.get_module_for_address from_pc, call_event.get_module_for_address to_pc,
       call_event.hashcode_lock_acquire, call_event.get_bb_state from_pc,
       call_event.get_bb_state to_pc, call_event.hashcode_lock_release] ++
      (unix_block env from_pc to_pc exit_ordinal edge_type).1 ++
      [call_event.hashcode_lock_acquire,
       call_event.write_link from_pc to_pc (env.get_bb_state from_pc)
         (env.get_bb_state to_pc) (env.get_module_for_address from_pc)
         (env.get_module_for_address to_pc) exit_ordinal edge_type,
       call_event.hashcode_lock_release] ∧
    (∀ e ∈ (unix_block env from_pc to_pc exit_ordinal edge_type).1, e.is_lock_op = false) ∧
    lock_held_from_check_to_write to_pc
      (notify_traversing_fragments env from_pc to_pc exit_ordinal edge_type) = false := by
  rw [notify_traversing_fragments_written] at hwrites
  have hcond : env.CROWD_SAFE_BB_GRAPH = true ∧
      state_missing_or_inactive (env.get_bb_state to_pc) = false ∧
      (unix_block env from_pc to_pc exit_ordinal edge_type).2 = false := by
    by_contra hc
    rw [if_neg hc] at hwrites
    exact hwrites rfl
  obtain ⟨hg, hs, hu⟩ := hcond
  have htrace := notify_traversing_fragments_live env from_pc to_pc exit_ordinal edge_type hg hs
  rw [hu] at htrace
  simp only [Bool.false_eq_true, if_false] at htrace
  rw [htrace]
  refine ⟨by simp [checks_trace], unix_block_no_lock env from_pc to_pc exit_ordinal edge_type hu,
    ?_⟩
  unfold lock_held_from_check_to_write checks_trace
  by_cases hft : from_pc = to_pc
  · subst hft
    simp [List.dropWhile, List.takeWhile, call_event.is_write_link]
  · simp [List.dropWhile, List.takeWhile, call_event.is_write_link, hft]

/-- Witness of C9 amended: the edge `X -> Y` between two live blocks. -/
theorem C9_lock_released_witness :
    notify_traversing_fragments
        (scenario_graph (some ⟨7, true⟩) (some ⟨9, true⟩) module_type.module_type_normal)
        0x401000 0x402000 0 graph_edge_type.direct_edge =
      [call_event.get_module_for_address 0x401000, call_event.get_module_for_address 0x402000,
       call_event.hashcode_lock_acquire, call_event.get_bb_state 0x401000,
       call_event.get_bb_state 0x402000, call_event.hashcode_lock_release] ++
      (unix_block
        (scenario_graph (some ⟨7, true⟩) (some ⟨9, true⟩) module_type.module_type_normal)
        0x401000 0x402000 0 graph_edge_type.direct_edge).1 ++
      [call_event.hashcode_lock_acquire,
       call_event.write_link 0x401000 0x402000
         ((scenario_graph (some ⟨7, true⟩) (some ⟨9, true⟩)
           module_type.module_type_normal).get_bb_state 0x401000)
         ((scenario_graph (some ⟨7, true⟩) (some ⟨9, true⟩)
           module_type.module_type_normal).get_bb_state 0x402000)
         ((scenario_graph (some ⟨7, true⟩) (some ⟨9, true⟩)
           module_type.module_type_normal).get_module_for_address 0x401000)
         ((scenario_graph (some ⟨7, true⟩) (some ⟨9, true⟩)
           module_type.module_type_normal).get_module_for_address 0x402000)
         0 graph_edge_type.direct_edge,
       call_event.hashcode_lock_release] ∧
    (∀ e ∈ (unix_block
        (scenario_graph (some ⟨7, true⟩) (some ⟨9, true⟩) module_type.module_type_normal)
        0x401000 0x402000 0 graph_edge_type.direct_edge).1, e.is_lock_op = false) ∧
    lock_held_from_check_to_write 0x402000
      (notify_traversing_fragments
        (scenario_graph (some ⟨7, true⟩) (some ⟨9, true⟩) module_type.module_type_normal)
        0x401000 0x402000 0 graph_edge_type.direct_edge) = false :=
  C9_lock_released_between_check_and_write
    (scenario_graph (some ⟨7, true⟩) (some ⟨9, true⟩) module_type.module_type_normal)
    0x401000 0x402000 0 graph_edge_type.direct_edge (by decide)

/-- C10 as stated fails: on the first observation of `(X, 60)` the one edge written
goes from `X` to `0x1000 + 60` with exit ordinal 0, but its edge type is
`indirect_edge`, not a syscall edge type, and it is written by `write_link`
directly, whatever the state of the syscall node (here: none). -/
theorem C10_counterexample :
    written_links (notify_traversing_syscall
      (scenario_graph (some ⟨7, true⟩) none module_type.module_type_normal)
      [] 0x401000 60).2 =
      [call_event.write_link 0x401000 (0x1000 + 60) (some ⟨7, true⟩) none
        ⟨1, module_type.module_type_normal⟩ ⟨0, module_type.module_type_system⟩ 0
        graph_edge_type.indirect_edge] ∧
    (written_links (notify_traversing_syscall
      (scenario_graph (some ⟨7, true⟩) none module_type.module_type_normal)
      [] 0x401000 60).2).map call_event.link_edge_type ≠
      [some graph_edge_type.syscall_edge] := by
  constructor <;> decide

/-- C10 amended: on the first observation of a pair `(block, syscall_number)`,
`notify_traversing_syscall` writes exactly one edge, directly with `write_link`
(no liveness check, nothing queued): from the block to the address
`SYSCALL_SINGLETON_START + syscall_number`, towards `system_module`, with exit
ordinal 0 and with edge type `indirect_edge`.  The address is computed as an
`app_pc`; it is the plain sum when the syscall number is not negative and the
sum fits the pointer width. -/
theorem C10_syscall_edge_shape (env : graph_env) (observed : List (Nat × Int))
    (dsbb_tag : Nat) (syscall_number : Int)
    (hgraph : env.CROWD_SAFE_BB_GRAPH = true)
    (hfirst : (dsbb_tag, syscall_number) ∉ observed) :
    written_links (notify_traversing_syscall env observed dsbb_tag syscall_number).2 =
      [call_event.write_link dsbb_tag (syscall_singleton_pc env syscall_number)
         (env.get_bb_state dsbb_tag)
         (env.get_bb_state (syscall_singleton_pc env syscall_number))
         (env.get_module_for_address dsbb_tag) env.system_module 0
         graph_edge_type.indirect_edge] ∧
    queued_pending_edges
      (notify_traversing_syscall env observed dsbb_tag syscall_number).2 = [] ∧
    (0 ≤ syscall_number →
      (env.SYSCALL_SINGLETON_START : Int) + syscall_number < 2 ^ env.ptr_bits →
      syscall_singleton_pc env syscall_number =
        env.SYSCALL_SINGLETON_START + syscall_number.toNat) := by
  refine ⟨?_, notify_traversing_syscall_queued env observed dsbb_tag syscall_number, ?_⟩
  · rw [notify_traversing_syscall_written, if_pos ⟨hgraph, hfirst⟩]
  · intro h0 hfit
    unfold syscall_singleton_pc
    rw [Int.emod_eq_of_lt (by omega) hfit]
    omega

/-- Witness of C10 amended: the first observation of `(X, 60)`. -/
theorem C10_syscall_edge_shape_witness :
    written_links (notify_traversing_syscall
      (scenario_graph (some ⟨7, true⟩) none module_type.module_type_normal)
      [] 0x401000 60).2 =
      [call_event.write_link 0x401000
         (syscall_singleton_pc
           (scenario_graph (some ⟨7, true⟩) none module_type.module_type_normal) 60)
         ((scenario_graph (some ⟨7, true⟩) none
           module_type.module_type_normal).get_bb_state 0x401000)
         ((scenario_graph (some ⟨7, true⟩) none module_type.module_type_normal).get_bb_state
           (syscall_singleton_pc
             (scenario_graph (some ⟨7, true⟩) none module_type.module_type_normal) 60))
         ((scenario_graph (some ⟨7, true⟩) none
           module_type.module_type_normal).get_module_for_address 0x401000)
         (scenario_graph (some ⟨7, true⟩) none module_type.module_type_normal).system_module 0
         graph_edge_type.indirect_edge] ∧
    queued_pending_edges (notify_traversing_syscall
      (scenario_graph (some ⟨7, true⟩) none module_type.module_type_normal)
      [] 0x401000 60).2 = [] ∧
    ((0 : Int) ≤ 60 →
      ((scenario_graph (some ⟨7, true⟩) none
          module_type.module_type_normal).SYSCALL_SINGLETON_START : Int) + 60 <
        2 ^ (scenario_graph (some ⟨7, true⟩) none module_type.module_type_normal).ptr_bits →
      syscall_singleton_pc
          (scenario_graph (some ⟨7, true⟩) none module_type.module_type_normal) 60 =
        (scenario_graph (some ⟨7, true⟩) none
          module_type.module_type_normal).SYSCALL_SINGLETON_START + (60 : Int).toNat) :=
  C10_syscall_edge_shape
    (scenario_graph (some ⟨7, true⟩) none module_type.module_type_normal)
    [] 0x401000 60 rfl (by simp)

/-! ## The dispatch outside the stack-pending block -/

theorem crowd_safe_dispatch_off (env : dispatch_env) (dcontext : dcontext_t)
    (hgraph : env.CROWD_SAFE_BB_GRAPH = false) :
    crowd_safe_dispatch env dcontext =
      some { csd := dcontext.csd, exit := dispatch_exit.returned, inserts := [],
             matched_address := false, context_switch := false, unwind_count := 0 } := by
  simp [crowd_safe_dispatch, hgraph]

theorem crowd_safe_dispatch_idle (env : dispatch_env) (dcontext : dcontext_t)
    (hgraph : env.CROWD_SAFE_BB_GRAPH = true)
    (hnew : dcontext.csd.ibp_data.ibp_meta.new_path = false)
    (hpend : dcontext.csd.ibp_data.ibp_meta.stack_pending = false) :
    crowd_safe_dispatch env dcontext =
      some { csd := ⟨dispatch_prologue dcontext.csd.ibp_data, dcontext.csd.shadow_stack,
                     dcontext.csd.shadow_stack_miss_frame⟩
             exit := dispatch_exit.returned, inserts := [],
             matched_address := false, context_switch := false, unwind_count := 0 } := by
  simp [crowd_safe_dispatch, hgraph, hnew, hpend]

theorem dispatch_prologue_fixed (d : ibp_metadata_t)
    (h : (d.ibp_from_tag ≠ 0 ∧ d.ibp_meta.path_pending = true) ∨
      (d.ibp_from_tag = 0 ∧ d.ibp_meta.path_pending = false)) :
    dispatch_prologue d = d := by
  unfold dispatch_prologue
  rcases h with ⟨h1, h2⟩ | ⟨h1, h2⟩
  · simp [h1, h2]
  · obtain ⟨f, t, ⟨pp, np, sp, ir, ur⟩⟩ := d
    simp only at h1 h2
    subst h1 h2
    rfl

theorem crowd_safe_dispatch_null_target (env : dispatch_env) (dcontext : dcontext_t)
    (hgraph : env.CROWD_SAFE_BB_GRAPH = true)
    (hnew : dcontext.csd.ibp_data.ibp_meta.new_path = true)
    (hnull : dcontext.csd.ibp_data.ibp_to_tag = 0) :
    crowd_safe_dispatch env dcontext =
      some { csd := ⟨{ dispatch_prologue dcontext.csd.ibp_data with
                       ibp_meta := { (dispatch_prologue dcontext.csd.ibp_data).ibp_meta with
                                     new_path := false } },
                     dcontext.csd.shadow_stack, dcontext.csd.shadow_stack_miss_frame⟩
             exit := dispatch_exit.fcache_target 0, inserts := [],
             matched_address := false, context_switch := false, unwind_count := 0 } := by
  simp [crowd_safe_dispatch, hgraph, hnew, hnull]

theorem crowd_safe_dispatch_new_path (env : dispatch_env) (dcontext : dcontext_t)
    (to_fragment : fragment_t)
    (hgraph : env.CROWD_SAFE_BB_GRAPH = true)
    (hnew : dcontext.csd.ibp_data.ibp_meta.new_path = true)
    (hto : dcontext.csd.ibp_data.ibp_to_tag ≠ 0)
    (hfrag : env.fragment_lookup dcontext.csd.ibp_data.ibp_to_tag = some to_fragment) :
    crowd_safe_dispatch env dcontext =
      some { csd := ⟨{ dispatch_prologue dcontext.csd.ibp_data with
                       ibp_meta := { (dispatch_prologue dcontext.csd.ibp_data).ibp_meta with
                                     new_path := false } },
                     dcontext.csd.shadow_stack, dcontext.csd.shadow_stack_miss_frame⟩
             exit := dispatch_exit.enter_fcache to_fragment.shared to_fragment.entry_pc
             inserts := [((dispatch_prologue dcontext.csd.ibp_data).ibp_from_tag,
                          dcontext.csd.ibp_data.ibp_to_tag)]
             matched_address := false, context_switch := false, unwind_count := 0 } := by
  simp [crowd_safe_dispatch, hgraph, hnew, hto, hfrag]

theorem stack_pending_block_some (env : dispatch_env) (next_tag xsp : Nat)
    (csd : local_crowd_safe_data_t)
    (above : List shadow_stack_frame_t) (bottom : shadow_stack_frame_t)
    (hwf : csd.shadow_stack = above ++ [bottom])
    (hbottom : bottom.base_pointer = env.SHADOW_STACK_SENTINEL) :
    ∃ r, stack_pending_block env next_tag xsp csd = some r := by
  obtain ⟨top, below, hstack⟩ : ∃ top below, csd.shadow_stack = top :: below := by
    cases hs : csd.shadow_stack with
    | nil => rw [hs] at hwf; simp at hwf
    | cons a l => exact ⟨a, l, rfl⟩
  by_cases hmatch : top.base_pointer ≠ env.SHADOW_STACK_SENTINEL ∧
      (csd.ibp_data.ibp_to_tag = top.return_address ∨ next_tag = top.return_address)
  · exact ⟨_, stack_pending_block_matched env next_tag xsp csd top below hstack hmatch.1
      hmatch.2⟩
  · have hmiss : top.base_pointer = env.SHADOW_STACK_SENTINEL ∨
        (csd.ibp_data.ibp_to_tag ≠ top.return_address ∧ next_tag ≠ top.return_address) := by
      by_cases hs : top.base_pointer = env.SHADOW_STACK_SENTINEL
      · exact Or.inl hs
      · exact Or.inr ⟨fun h => hmatch ⟨hs, Or.inl h⟩, fun h => hmatch ⟨hs, Or.inr h⟩⟩
    by_cases hdelta : stack_delta xsp top.base_pointer > 0x1000
    · exact ⟨_, stack_pending_block_context_switch env next_tag xsp csd top below hstack hmiss
        hdelta⟩
    · have hsent : ∃ f ∈ top :: below, f.base_pointer = env.SHADOW_STACK_SENTINEL := by
        rw [← hstack, hwf]
        exact ⟨bottom, by simp, hbottom⟩
      obtain ⟨popped, rest, e, hloop, -, -, -⟩ :=
        unwind_loop_total env.SHADOW_STACK_SENTINEL xsp csd.ibp_data.ibp_to_tag
          (top :: below) 0 hsent
      exact ⟨_, stack_pending_block_unwind env next_tag xsp csd top below hstack hmiss
        (not_lt.mp hdelta) rest (0 + popped.length) e hloop⟩

theorem stack_pending_block_acknowledges (env : dispatch_env) (next_tag xsp : Nat)
    (csd : local_crowd_safe_data_t) (r : dispatch_result)
    (h : stack_pending_block env next_tag xsp csd = some r) :
    r.exit = dispatch_exit.returned ∧ r.inserts = [] ∧
    r.csd.ibp_data.ibp_meta.stack_pending = false ∧
    r.csd.ibp_data.ibp_meta.is_return = csd.ibp_data.ibp_meta.is_return ∧
    r.csd.ibp_data.ibp_meta.new_path = csd.ibp_data.ibp_meta.new_path ∧
    r.csd.ibp_data.ibp_meta.path_pending = csd.ibp_data.ibp_meta.path_pending ∧
    r.csd.ibp_data.ibp_from_tag = csd.ibp_data.ibp_from_tag ∧
    r.csd.ibp_data.ibp_to_tag = csd.ibp_data.ibp_to_tag := by
  unfold stack_pending_block at h
  cases hs : csd.shadow_stack with
  | nil => rw [hs] at h; cases h
  | cons top below =>
    rw [hs] at h
    dsimp only at h
    split_ifs at h
    all_goals first
      | (injection h with h
         subst h
         exact ⟨rfl, rfl, rfl, rfl, rfl, rfl, rfl, rfl⟩)
      | (cases hl : unwind_loop env.SHADOW_STACK_SENTINEL xsp csd.ibp_data.ibp_to_tag
            (top :: below) 0 with
         | none => rw [hl] at h; cases h
         | some res =>
           obtain ⟨stk, n, e⟩ := res
           rw [hl] at h
           injection h with h
           subst h
           exact ⟨rfl, rfl, rfl, rfl, rfl, rfl, rfl, rfl⟩)

theorem syscall_hash_eq_fold_spec (h : Nat) (n : Int) (hh : h < 2 ^ 64) :
    syscall_hash h n = (fold_spec h n).toNat := by
  unfold syscall_hash fold_spec
  simp only [BitVec.toNat_xor, BitVec.toNat_shiftLeft, BitVec.toNat_ofNat, BitVec.toNat_ofInt,
    Nat.mod_eq_of_lt hh]
  rfl

/-! ## The trampoline block and the hash records -/

theorem written_hashes_append (a b : List call_event) :
    written_hashes (a ++ b) = written_hashes a ++ written_hashes b := by
  simp [written_hashes]

theorem trampoline_edges_append (a b : List call_event) :
    trampoline_edges (a ++ b) = trampoline_edges a ++ trampoline_edges b := by
  simp [trampoline_edges]

theorem flush_output_buffers_no_hash (env : graph_env) :
    written_hashes (flush_output_buffers env) = [] := by
  unfold flush_output_buffers
  split <;> rfl

theorem notify_traversing_syscall_first_hashes (env : graph_env)
    (observed : List (Nat × Int)) (dsbb_tag : Nat) (syscall_number : Int)
    (hgraph : env.CROWD_SAFE_BB_GRAPH = true)
    (hfirst : (dsbb_tag, syscall_number) ∉ observed) :
    written_hashes (notify_traversing_syscall env observed dsbb_tag syscall_number).2 =
      if env.CROWD_SAFE_PAIR_HASH = true then
        [call_event.write_hash (syscall_hash (env.get_bb_hash dsbb_tag) syscall_number)]
      else [] := by
  have hf := flush_output_buffers_no_hash env
  rw [notify_traversing_syscall_first env observed dsbb_tag syscall_number hgraph hfirst]
  simp only [written_hashes_append]
  split_ifs <;> simp_all [written_hashes, call_event.is_write_hash]

theorem notify_traversing_syscall_again_hashes (env : graph_env)
    (observed : List (Nat × Int)) (dsbb_tag : Nat) (syscall_number : Int)
    (hagain : (dsbb_tag, syscall_number) ∈ observed) :
    written_hashes (notify_traversing_syscall env observed dsbb_tag syscall_number).2 = [] := by
  have hf := flush_output_buffers_no_hash env
  cases hg : env.CROWD_SAFE_BB_GRAPH
  · rw [notify_traversing_syscall_off env observed dsbb_tag syscall_number hg]
    rfl
  · rw [notify_traversing_syscall_again env observed dsbb_tag syscall_number hg hagain]
    simp only [written_hashes_append]
    split_ifs <;> simp_all [written_hashes, call_event.is_write_hash]

theorem trampoline_block_tracked (env : graph_env) (from_pc to_pc exit_ordinal : Nat)
    (edge_type : graph_edge_type) (trampoline : trampoline_tracker)
    (hfrom : env.omit_bb_from_static_hash_output from_pc = false)
    (hto : env.omit_bb_from_static_hash_output to_pc = false)
    (htracker : env.trampoline_trackers to_pc = some trampoline) :
    trampoline_block env from_pc to_pc exit_ordinal edge_type =
      ([call_event.omit_bb_from_static_hash_output from_pc,
        call_event.omit_bb_from_static_hash_output to_pc,
        call_event.hashtable_lookup_trampoline_trackers to_pc,
        call_event.hashcode_lock_acquire,
        call_event.resolve_pending_trampolines,
        if (env.resolve_pending_trampolines to_pc trampoline).function_entry = 0 then
          call_event.pend_trampoline_caller to_pc from_pc exit_ordinal
            (decide (edge_type = graph_edge_type.direct_edge))
        else
          call_event.write_trampoline to_pc from_pc exit_ordinal edge_type,
        call_event.hashcode_lock_release], true) := by
  unfold trampoline_block
  rw [if_neg (by simp [hfrom]), if_neg (by simp [hto]), htracker]

theorem trampoline_block_self_jump (env : graph_env) (from_pc to_pc exit_ordinal : Nat)
    (trampoline : trampoline_tracker)
    (hno : env.trampoline_trackers to_pc = none)
    (htracker : env.trampoline_trackers from_pc = some trampoline)
    (hentry : trampoline.function_entry ≠ 0) :
    (trampoline_block env from_pc to_pc exit_ordinal graph_edge_type.indirect_edge).2 = true ∧
    trampoline_edges
      (trampoline_block env from_pc to_pc exit_ordinal graph_edge_type.indirect_edge).1 = [] := by
  unfold trampoline_block
  by_cases h1 : env.omit_bb_from_static_hash_output from_pc = true
  · rw [if_pos h1]
    exact ⟨rfl, rfl⟩
  rw [if_neg h1]
  by_cases h2 : env.omit_bb_from_static_hash_output to_pc = true
  · rw [if_pos h2]
    exact ⟨rfl, rfl⟩
  rw [if_neg h2, hno]
  dsimp only
  rw [if_pos rfl, htracker]
  exact ⟨by simp [hentry], rfl⟩

/-! ## Claims on the syscall observer -/

/-- C11: with graph recording and pair hashes on, `notify_traversing_syscall(B, n)`
on a pair not observed before (the observation answers true) writes exactly one
edge, to the syscall node of `n`, and exactly one hash record; on a pair
already observed it writes no edge and no hash record; so the call repeated on
the state left by the first call writes nothing, and the two calls together
write one edge and one hash record. -/
theorem C11_syscall_observed_once (env : graph_env) (observed : List (Nat × Int))
    (dsbb_tag : Nat) (syscall_number : Int)
    (hgraph : env.CROWD_SAFE_BB_GRAPH = true)
    (hpair : env.CROWD_SAFE_PAIR_HASH = true)
    (hfirst : (dsbb_tag, syscall_number) ∉ observed) :
    (observe_dynamic_sysnum observed dsbb_tag syscall_number).1 = true ∧
    written_links (notify_traversing_syscall env observed dsbb_tag syscall_number).2 =
      [call_event.write_link dsbb_tag (syscall_singleton_pc env syscall_number)
         (env.get_bb_state dsbb_tag)
         (env.get_bb_state (syscall_singleton_pc env syscall_number))
         (env.get_module_for_address dsbb_tag) env.system_module 0
         graph_edge_type.indirect_edge] ∧
    written_hashes (notify_traversing_syscall env observed dsbb_tag syscall_number).2 =
      [call_event.write_hash (syscall_hash (env.get_bb_hash dsbb_tag) syscall_number)] ∧
    (∀ seen : List (Nat × Int), (dsbb_tag, syscall_number) ∈ seen →
      (observe_dynamic_sysnum seen dsbb_tag syscall_number).1 = false ∧
      (notify_traversing_syscall env seen dsbb_tag syscall_number).1 = seen ∧
      written_links (notify_traversing_syscall env seen dsbb_tag syscall_number).2 = [] ∧
      written_hashes (notify_traversing_syscall env seen dsbb_tag syscall_number).2 = []) ∧
    (dsbb_tag, syscall_number) ∈
      (notify_traversing_syscall env observed dsbb_tag syscall_number).1 ∧
    (written_links
      ((notify_traversing_syscall env observed dsbb_tag syscall_number).2 ++
        (notify_traversing_syscall env
          (notify_traversing_syscall env observed dsbb_tag syscall_number).1
          dsbb_tag syscall_number).2)).length = 1 ∧
    (written_hashes
      ((notify_traversing_syscall env observed dsbb_tag syscall_number).2 ++
        (notify_traversing_syscall env
          (notify_traversing_syscall env observed dsbb_tag syscall_number).1
          dsbb_tag syscall_number).2)).length = 1 := by
  have hlinks := notify_traversing_syscall_written env observed dsbb_tag syscall_number
  rw [if_pos ⟨hgraph, hfirst⟩] at hlinks
  have hhashes := notify_traversing_syscall_first_hashes env observed dsbb_tag syscall_number
    hgraph hfirst
  rw [if_pos hpair] at hhashes
  have hseen : ∀ seen : List (Nat × Int), (dsbb_tag, syscall_number) ∈ seen →
      (observe_dynamic_sysnum seen dsbb_tag syscall_number).1 = false ∧
      (notify_traversing_syscall env seen dsbb_tag syscall_number).1 = seen ∧
      written_links (notify_traversing_syscall env seen dsbb_tag syscall_number).2 = [] ∧
      written_hashes (notify_traversing_syscall env seen dsbb_tag syscall_number).2 = [] := by
    intro seen hin
    refine ⟨?_, ?_, ?_, notify_traversing_syscall_again_hashes env seen dsbb_tag syscall_number
      hin⟩
    · rw [observe_dynamic_sysnum_again seen dsbb_tag syscall_number hin]
    · rw [notify_traversing_syscall_again env seen dsbb_tag syscall_number hgraph hin]
    · rw [notify_traversing_syscall_written, if_neg]
      exact fun h => h.2 hin
  have hmem : (dsbb_tag, syscall_number) ∈
      (notify_traversing_syscall env observed dsbb_tag syscall_number).1 := by
    rw [notify_traversing_syscall_first env observed dsbb_tag syscall_number hgraph hfirst]
    simp
  obtain ⟨-, -, h2links, h2hashes⟩ := hseen _ hmem
  refine ⟨?_, hlinks, hhashes, hseen, hmem, ?_, ?_⟩
  · rw [observe_dynamic_sysnum_first observed dsbb_tag syscall_number hfirst]
  · rw [written_links_append, hlinks, h2links]
    rfl
  · rw [written_hashes_append, hhashes, h2hashes]
    rfl

/-- Witness of C11: `observe_syscall(B, 60)` twice, `B = 0x401000`. -/
theorem C11_syscall_observed_once_witness :
    written_links (notify_traversing_syscall
      (scenario_graph (some ⟨7, true⟩) none module_type.module_type_normal)
      [] 0x401000 60).2 =
      [call_event.write_link 0x401000 0x103c (some ⟨7, true⟩) none
        ⟨1, module_type.module_type_normal⟩ ⟨0, module_type.module_type_system⟩ 0
        graph_edge_type.indirect_edge] ∧
    written_hashes (notify_traversing_syscall
      (scenario_graph (some ⟨7, true⟩) none module_type.module_type_normal)
      [] 0x401000 60).2 = [call_event.write_hash 219] ∧
    (notify_traversing_syscall
      (scenario_graph (some ⟨7, true⟩) none module_type.module_type_normal)
      [] 0x401000 60).1 = [(0x401000, 60)] ∧
    written_links (notify_traversing_syscall
      (scenario_graph (some ⟨7, true⟩) none module_type.module_type_normal)
      [(0x401000, 60)] 0x401000 60).2 = [] ∧
    written_hashes (notify_traversing_syscall
      (scenario_graph (some ⟨7, true⟩) none module_type.module_type_normal)
      [(0x401000, 60)] 0x401000 60).2 = [] := by
  obtain ⟨-, h2, h3, h4, -, -, -⟩ := C11_syscall_observed_once
    (scenario_graph (some ⟨7, true⟩) none module_type.module_type_normal)
    [] 0x401000 60 rfl rfl (by simp)
  obtain ⟨-, -, h5, h6⟩ := h4 [(0x401000, 60)] (by simp)
  refine ⟨?_, ?_, by decide, h5, h6⟩
  · rw [h2]
    decide
  · rw [h3]
    decide

/-- C12: on a first observation, with graph recording and pair hashes on, the
fingerprint written by `notify_traversing_syscall` for a block with 64-bit hash
`h` and syscall number `n` is `h XOR (h << 5) XOR n` computed on 64-bit words
(`fold_spec`): as a number, `h xor (h * 32 mod 2^64) xor (n mod 2^64)`, below
`2^64`; and it depends on `(h, n)` only: any other first observation with the
same block hash and syscall number writes the same fingerprint. -/
theorem C12_syscall_hash_fold (env : graph_env) (observed : List (Nat × Int))
    (dsbb_tag : Nat) (syscall_number : Int)
    (hgraph : env.CROWD_SAFE_BB_GRAPH = true)
    (hpair : env.CROWD_SAFE_PAIR_HASH = true)
    (hfirst : (dsbb_tag, syscall_number) ∉ observed)
    (hword : env.get_bb_hash dsbb_tag < 2 ^ 64) :
    written_hashes (notify_traversing_syscall env observed dsbb_tag syscall_number).2 =
      [call_event.write_hash (fold_spec (env.get_bb_hash dsbb_tag) syscall_number).toNat] ∧
    (fold_spec (env.get_bb_hash dsbb_tag) syscall_number).toNat =
      (env.get_bb_hash dsbb_tag ^^^ (env.get_bb_hash dsbb_tag * 2 ^ 5 % 2 ^ 64)) ^^^
        (syscall_number % 2 ^ 64).toNat ∧
    (fold_spec (env.get_bb_hash dsbb_tag) syscall_number).toNat < 2 ^ 64 ∧
    (∀ (env2 : graph_env) (observed2 : List (Nat × Int)) (dsbb_tag2 : Nat),
      env2.CROWD_SAFE_BB_GRAPH = true → env2.CROWD_SAFE_PAIR_HASH = true →
      (dsbb_tag2, syscall_number) ∉ observed2 →
      env2.get_bb_hash dsbb_tag2 = env.get_bb_hash dsbb_tag →
      written_hashes (notify_traversing_syscall env2 observed2 dsbb_tag2 syscall_number).2 =
        written_hashes
          (notify_traversing_syscall env observed dsbb_tag syscall_number).2) := by
  have hhashes := notify_traversing_syscall_first_hashes env observed dsbb_tag syscall_number
    hgraph hfirst
  rw [if_pos hpair] at hhashes
  have hfold := syscall_hash_eq_fold_spec (env.get_bb_hash dsbb_tag) syscall_number hword
  refine ⟨?_, ?_, (fold_spec (env.get_bb_hash dsbb_tag) syscall_number).isLt, ?_⟩
  · rw [hhashes, hfold]
  · rw [← hfold]
    unfold syscall_hash
    rw [Nat.shiftLeft_eq]
  · intro env2 observed2 dsbb_tag2 hg2 hp2 hf2 hsame
    have h2 := notify_traversing_syscall_first_hashes env2 observed2 dsbb_tag2 syscall_number
      hg2 hf2
    rw [if_pos hp2] at h2
    rw [h2, hhashes, hsame]

/-- Witness of C12: block hash 7 and syscall 60 give `7 xor 224 xor 60 = 219`. -/
theorem C12_syscall_hash_fold_witness :
    written_hashes (notify_traversing_syscall
      (scenario_graph (some ⟨7, true⟩) none module_type.module_type_normal)
      [] 0x401000 60).2 = [call_event.write_hash 219] ∧
    (fold_spec 7 60).toNat = 219 := by
  obtain ⟨h1, -, -, -⟩ := C12_syscall_hash_fold
    (scenario_graph (some ⟨7, true⟩) none module_type.module_type_normal)
    [] 0x401000 60 rfl rfl (by simp) (by decide)
  refine ⟨?_, by decide⟩
  rw [h1]
  decide

/-! ## Claims on the dispatch -/

/-- C13 as stated fails: a transition with neither new-path nor stack-pending set,
`ibp_from_tag = 0x400` and the path-pending bit clear comes back from
`crowd_safe_dispatch` with `ibp_from_tag = 0`; and one with `ibp_from_tag = 0` and
path-pending set comes back with path-pending clear. -/
theorem C13_counterexample :
    (∃ r, crowd_safe_dispatch scenario_env
        (scenario_transition ⟨false, false, false, false, false⟩ 0x400 0xA00
          [scenario_sentinel]) = some r ∧
      r.csd.ibp_data.ibp_from_tag = 0 ∧
      r.csd.ibp_data.ibp_from_tag ≠
        (scenario_transition ⟨false, false, false, false, false⟩ 0x400 0xA00
          [scenario_sentinel]).csd.ibp_data.ibp_from_tag) ∧
    (∃ r, crowd_safe_dispatch scenario_env
        (scenario_transition ⟨true, false, false, false, false⟩ 0 0xA00
          [scenario_sentinel]) = some r ∧
      r.csd.ibp_data.ibp_meta.path_pending = false ∧
      (scenario_transition ⟨true, false, false, false, false⟩ 0 0xA00
        [scenario_sentinel]).csd.ibp_data.ibp_meta.path_pending = true) :=
  ⟨⟨_, rfl, rfl, by decide⟩, ⟨_, rfl, rfl, rfl⟩⟩

/-- C13 amended: when neither the new-path nor the stack-pending flag is set,
`crowd_safe_dispatch` returns, records no edge, and leaves `ibp_to_tag`, the
new-path, stack-pending, is_return and unexpected_return bits and the shadow
stack as they were; `ibp_from_tag` and the path-pending bit are what the
prologue makes of them, so the whole thread data is unchanged when on entry
`ibp_from_tag` is non-null with path-pending set or null with path-pending
clear (or when graph recording is off). -/
theorem C13_cache_hit_only_runs_prologue (env : dispatch_env) (dcontext : dcontext_t)
    (hnew : dcontext.csd.ibp_data.ibp_meta.new_path = false)
    (hpend : dcontext.csd.ibp_data.ibp_meta.stack_pending = false) :
    ∃ r, crowd_safe_dispatch env dcontext = some r ∧
      r.exit = dispatch_exit.returned ∧
      r.inserts = [] ∧
      r.csd.shadow_stack = dcontext.csd.shadow_stack ∧
      r.csd.shadow_stack_miss_frame = dcontext.csd.shadow_stack_miss_frame ∧
      r.csd.ibp_data.ibp_to_tag = dcontext.csd.ibp_data.ibp_to_tag ∧
      r.csd.ibp_data.ibp_meta.new_path = dcontext.csd.ibp_data.ibp_meta.new_path ∧
      r.csd.ibp_data.ibp_meta.stack_pending = dcontext.csd.ibp_data.ibp_meta.stack_pending ∧
      r.csd.ibp_data.ibp_meta.is_return = dcontext.csd.ibp_data.ibp_meta.is_return ∧
      r.csd.ibp_data.ibp_meta.unexpected_return =
        dcontext.csd.ibp_data.ibp_meta.unexpected_return ∧
      r.csd.ibp_data =
        (if env.CROWD_SAFE_BB_GRAPH = true then dispatch_prologue dcontext.csd.ibp_data
         else dcontext.csd.ibp_data) ∧
      (((dcontext.csd.ibp_data.ibp_from_tag ≠ 0 ∧
            dcontext.csd.ibp_data.ibp_meta.path_pending = true) ∨
          (dcontext.csd.ibp_data.ibp_from_tag = 0 ∧
            dcontext.csd.ibp_data.ibp_meta.path_pending = false)) →
        r.csd = dcontext.csd) := by
  cases hg : env.CROWD_SAFE_BB_GRAPH
  · rw [crowd_safe_dispatch_off env dcontext hg]
    exact ⟨_, rfl, rfl, rfl, rfl, rfl, rfl, rfl, rfl, rfl, rfl, by simp, fun _ => rfl⟩
  · rw [crowd_safe_dispatch_idle env dcontext hg hnew hpend]
    refine ⟨_, rfl, rfl, rfl, rfl, rfl, ?_, ?_, ?_, ?_, ?_, by simp, ?_⟩
    · exact dispatch_prologue_to_tag _
    · exact dispatch_prologue_new_path _
    · exact dispatch_prologue_stack_pending _
    · exact dispatch_prologue_is_return _
    · exact dispatch_prologue_unexpected_return _
    · intro hfix
      show (⟨dispatch_prologue dcontext.csd.ibp_data, dcontext.csd.shadow_stack,
        dcontext.csd.shadow_stack_miss_frame⟩ : local_crowd_safe_data_t) = dcontext.csd
      rw [dispatch_prologue_fixed _ hfix]

/-- Witness of C13 amended: a cache hit from `0x400` with path-pending set. -/
theorem C13_cache_hit_witness :
    ∃ r, crowd_safe_dispatch scenario_env
        (scenario_transition ⟨true, false, false, true, false⟩ 0x400 0xA00
          [scenario_sentinel]) = some r ∧
      r.exit = dispatch_exit.returned ∧
      r.inserts = [] ∧
      r.csd = (scenario_transition ⟨true, false, false, true, false⟩ 0x400 0xA00
        [scenario_sentinel]).csd :=
  by
  obtain ⟨r, h1, h2, h3, -, -, -, -, -, -, -, -, h12⟩ :=
    C13_cache_hit_only_runs_prologue scenario_env
      (scenario_transition ⟨true, false, false, true, false⟩ 0x400 0xA00 [scenario_sentinel])
      rfl rfl
  exact ⟨r, h1, h2, h3, h12 (Or.inl ⟨by decide, rfl⟩)⟩

/-- C14: a dispatch of a new-path transition whose `ibp_to_tag` is null does not
return: it ends in `set_fcache_target(dcontext, 0)` and the call of the fcache
enter routine; `indirect_link_hashtable_insert` is not called, the new-path
flag is cleared, and the shadow stack is untouched. -/
theorem C14_null_target_is_fatal (env : dispatch_env) (dcontext : dcontext_t)
    (hgraph : env.CROWD_SAFE_BB_GRAPH = true)
    (hnew : dcontext.csd.ibp_data.ibp_meta.new_path = true)
    (hnull : dcontext.csd.ibp_data.ibp_to_tag = 0) :
    ∃ r, crowd_safe_dispatch env dcontext = some r ∧
      r.exit = dispatch_exit.fcache_target 0 ∧
      r.exit ≠ dispatch_exit.returned ∧
      r.inserts = [] ∧
      r.csd.ibp_data.ibp_meta.new_path = false ∧
      r.csd.shadow_stack = dcontext.csd.shadow_stack := by
  rw [crowd_safe_dispatch_null_target env dcontext hgraph hnew hnull]
  exact ⟨_, rfl, rfl, by simp, rfl, rfl, rfl⟩

/-- Witness of C14: a new path from `0x400` to address 0. -/
theorem C14_null_target_witness :
    ∃ r, crowd_safe_dispatch scenario_env
        (scenario_transition ⟨true, true, false, false, false⟩ 0x400 0
          [⟨0x1000, 0xA⟩, scenario_sentinel]) = some r ∧
      r.exit = dispatch_exit.fcache_target 0 ∧
      r.exit ≠ dispatch_exit.returned ∧
      r.inserts = [] ∧
      r.csd.ibp_data.ibp_meta.new_path = false ∧
      r.csd.shadow_stack =
        (scenario_transition ⟨true, true, false, false, false⟩ 0x400 0
          [⟨0x1000, 0xA⟩, scenario_sentinel]).csd.shadow_stack :=
  C14_null_target_is_fatal scenario_env
    (scenario_transition ⟨true, true, false, false, false⟩ 0x400 0
      [⟨0x1000, 0xA⟩, scenario_sentinel]) rfl rfl rfl

/-- C15: a dispatch of a new-path transition with a non-null `ibp_to_tag` whose
fragment exists calls `indirect_link_hashtable_insert` exactly once (for the
pair `ibp_from_tag`, `ibp_to_tag` left by the prologue), clears the new-path
flag, leaves the shadow stack and the unexpected_return, is_return and
stack-pending bits as they were, and ends by entering the code cache at the
fragment of `ibp_to_tag`; the stack-pending block is not run (its locals keep
their initial values), whether or not the transition is a return. -/
theorem C15_new_path_records_edge_once (env : dispatch_env) (dcontext : dcontext_t)
    (to_fragment : fragment_t)
    (hgraph : env.CROWD_SAFE_BB_GRAPH = true)
    (hnew : dcontext.csd.ibp_data.ibp_meta.new_path = true)
    (hto : dcontext.csd.ibp_data.ibp_to_tag ≠ 0)
    (hfrag : env.fragment_lookup dcontext.csd.ibp_data.ibp_to_tag = some to_fragment) :
    ∃ r, crowd_safe_dispatch env dcontext = some r ∧
      r.inserts = [((dispatch_prologue dcontext.csd.ibp_data).ibp_from_tag,
                    dcontext.csd.ibp_data.ibp_to_tag)] ∧
      r.inserts.length = 1 ∧
      r.csd.ibp_data.ibp_meta.new_path = false ∧
      r.csd.shadow_stack = dcontext.csd.shadow_stack ∧
      r.csd.ibp_data.ibp_meta.unexpected_return =
        dcontext.csd.ibp_data.ibp_meta.unexpected_return ∧
      r.csd.ibp_data.ibp_meta.is_return = dcontext.csd.ibp_data.ibp_meta.is_return ∧
      r.csd.ibp_data.ibp_meta.stack_pending = dcontext.csd.ibp_data.ibp_meta.stack_pending ∧
      r.exit = dispatch_exit.enter_fcache to_fragment.shared to_fragment.entry_pc ∧
      r.matched_address = false ∧ r.context_switch = false ∧ r.unwind_count = 0 ∧
      ((dcontext.csd.ibp_data.ibp_from_tag ≠ 0 ∧
          dcontext.csd.ibp_data.ibp_meta.path_pending = true) →
        r.inserts = [(dcontext.csd.ibp_data.ibp_from_tag,
                      dcontext.csd.ibp_data.ibp_to_tag)]) := by
  rw [crowd_safe_dispatch_new_path env dcontext to_fragment hgraph hnew hto hfrag]
  refine ⟨_, rfl, rfl, rfl, rfl, rfl, ?_, ?_, ?_, rfl, rfl, rfl, rfl, ?_⟩
  · exact dispatch_prologue_unexpected_return _
  · exact dispatch_prologue_is_return _
  · exact dispatch_prologue_stack_pending _
  · intro hfix
    show [((dispatch_prologue dcontext.csd.ibp_data).ibp_from_tag,
      dcontext.csd.ibp_data.ibp_to_tag)] = _
    rw [dispatch_prologue_fixed _ (Or.inl hfix)]

/-- Witness of C15: a new path from `0x400` to `0xA00`, flagged as an unexpected
return, path-pending set and stack-pending clear. -/
theorem C15_new_path_witness :
    ∃ r, crowd_safe_dispatch scenario_env_with_fragment
        (scenario_transition ⟨true, true, false, true, true⟩ 0x400 0xA00
          [⟨0x1000, 0xA⟩, scenario_sentinel]) = some r ∧
      r.inserts = [(0x400, 0xA00)] ∧
      r.csd.ibp_data.ibp_meta.new_path = false ∧
      r.csd.shadow_stack = [⟨0x1000, 0xA⟩, scenario_sentinel] ∧
      r.exit = dispatch_exit.enter_fcache true 0xCA00 :=
  by
  obtain ⟨r, h1, -, -, h4, h5, -, -, -, h9, -, -, -, h13⟩ :=
    C15_new_path_records_edge_once scenario_env_with_fragment
      (scenario_transition ⟨true, true, false, true, true⟩ 0x400 0xA00
        [⟨0x1000, 0xA⟩, scenario_sentinel])
      ⟨true, 0xCA00⟩ rfl rfl (by decide) rfl
  exact ⟨r, h1, h13 ⟨by decide, rfl⟩, h4, h5, h9⟩

/-- C16: a dispatch of a return-pending, not new-path transition on a shadow stack
with the sentinel at its bottom returns, whatever the outcome of the
verification, with the stack-pending flag clear and with the is_return and
new-path bits as they were; it records no edge. -/
theorem C16_return_pending_acknowledged (env : dispatch_env) (dcontext : dcontext_t)
    (above : List shadow_stack_frame_t) (bottom : shadow_stack_frame_t)
    (hgraph : env.CROWD_SAFE_BB_GRAPH = true)
    (hnew : dcontext.csd.ibp_data.ibp_meta.new_path = false)
    (hpend : dcontext.csd.ibp_data.ibp_meta.stack_pending = true)
    (hwf : dcontext.csd.shadow_stack = above ++ [bottom])
    (hbottom : bottom.base_pointer = env.SHADOW_STACK_SENTINEL) :
    ∃ r, crowd_safe_dispatch env dcontext = some r ∧
      r.exit = dispatch_exit.returned ∧
      r.inserts = [] ∧
      r.csd.ibp_data.ibp_meta.stack_pending = false ∧
      r.csd.ibp_data.ibp_meta.is_return = dcontext.csd.ibp_data.ibp_meta.is_return ∧
      r.csd.ibp_data.ibp_meta.new_path = dcontext.csd.ibp_data.ibp_meta.new_path := by
  rw [crowd_safe_dispatch_stack_pending env dcontext hgraph hnew hpend]
  obtain ⟨r, hr⟩ := stack_pending_block_some env dcontext.next_tag dcontext.xsp
    ⟨dispatch_prologue dcontext.csd.ibp_data, dcontext.csd.shadow_stack,
      dcontext.csd.shadow_stack_miss_frame⟩ above bottom hwf hbottom
  obtain ⟨h1, h2, h3, h4, h5, -⟩ := stack_pending_block_acknowledges env dcontext.next_tag
    dcontext.xsp _ r hr
  refine ⟨r, hr, h1, h2, h3, ?_, ?_⟩
  · rw [h4]
    exact dispatch_prologue_is_return _
  · rw [h5]
    exact dispatch_prologue_new_path _

/-- Witness of C16: the unexpected return to `0xC` on the stack `(0x1000, 0xA)`,
`(0xF00, 0xB)`. -/
theorem C16_return_pending_witness :
    ∃ r, crowd_safe_dispatch scenario_env
        (scenario_return [⟨0xF00, 0xB⟩, ⟨0x1000, 0xA⟩, scenario_sentinel] 0xC 0x1000) = some r ∧
      r.exit = dispatch_exit.returned ∧
      r.inserts = [] ∧
      r.csd.ibp_data.ibp_meta.stack_pending = false ∧
      r.csd.ibp_data.ibp_meta.is_return =
        (scenario_return [⟨0xF00, 0xB⟩, ⟨0x1000, 0xA⟩, scenario_sentinel]
          0xC 0x1000).csd.ibp_data.ibp_meta.is_return ∧
      r.csd.ibp_data.ibp_meta.new_path =
        (scenario_return [⟨0xF00, 0xB⟩, ⟨0x1000, 0xA⟩, scenario_sentinel]
          0xC 0x1000).csd.ibp_data.ibp_meta.new_path :=
  C16_return_pending_acknowledged scenario_env
    (scenario_return [⟨0xF00, 0xB⟩, ⟨0x1000, 0xA⟩, scenario_sentinel] 0xC 0x1000)
    [⟨0xF00, 0xB⟩, ⟨0x1000, 0xA⟩] scenario_sentinel rfl rfl rfl rfl rfl

/-! ## Claims on the trampolines -/

/-- C17: in a `UNIX` build, when the destination block is live, neither block is
omitted and `to` has a trampoline tracker, `notify_traversing_fragments` takes
the lock, runs `resolve_pending_trampolines` and then: if the tracker's
`function_entry` is (still) unresolved it buffers the caller with
`pend_trampoline_caller(tracker, from, exit_ordinal, edge_type == direct_edge)`
and writes no edge; if it is resolved it writes the edge with
`write_trampoline(tracker, from, exit_ordinal, edge_type)` and buffers nothing.
In both cases it returns without calling `write_link` and queues no pending
edge. -/
theorem C17_trampoline_buffering (env : graph_env) (from_pc to_pc exit_ordinal : Nat)
    (edge_type : graph_edge_type) (trampoline : trampoline_tracker)
    (hunix : env.UNIX = true)
    (hgraph : env.CROWD_SAFE_BB_GRAPH = true)
    (hlive : state_missing_or_inactive (env.get_bb_state to_pc) = false)
    (hfrom : env.omit_bb_from_static_hash_output from_pc = false)
    (hto : env.omit_bb_from_static_hash_output to_pc = false)
    (htracker : env.trampoline_trackers to_pc = some trampoline) :
    notify_traversing_fragments env from_pc to_pc exit_ordinal edge_type =
      [call_event.get_module_for_address from_pc, call_event.get_module_for_address to_pc,
       call_event.hashcode_lock_acquire, call_event.get_bb_state from_pc,
       call_event.get_bb_state to_pc, call_event.hashcode_lock_release,
       call_event.omit_bb_from_static_hash_output from_pc,
       call_event.omit_bb_from_static_hash_output to_pc,
       call_event.hashtable_lookup_trampoline_trackers to_pc,
       call_event.hashcode_lock_acquire,
       call_event.resolve_pending_trampolines,
       if (env.resolve_pending_trampolines to_pc trampoline).function_entry = 0 then
         call_event.pend_trampoline_caller to_pc from_pc exit_ordinal
           (decide (edge_type = graph_edge_type.direct_edge))
       else
         call_event.write_trampoline to_pc from_pc exit_ordinal edge_type,
       call_event.hashcode_lock_release] ∧
    ((env.resolve_pending_trampolines to_pc trampoline).function_entry = 0 →
      trampoline_edges (notify_traversing_fragments env from_pc to_pc exit_ordinal edge_type) =
        [call_event.pend_trampoline_caller to_pc from_pc exit_ordinal
          (decide (edge_type = graph_edge_type.direct_edge))]) ∧
    ((env.resolve_pending_trampolines to_pc trampoline).function_entry ≠ 0 →
      trampoline_edges (notify_traversing_fragments env from_pc to_pc exit_ordinal edge_type) =
        [call_event.write_trampoline to_pc from_pc exit_ordinal edge_type]) ∧
    written_links (notify_traversing_fragments env from_pc to_pc exit_ordinal edge_type) = [] ∧
    queued_pending_edges
      (notify_traversing_fragments env from_pc to_pc exit_ordinal edge_type) = [] := by
  have hblock : unix_block env from_pc to_pc exit_ordinal edge_type =
      trampoline_block env from_pc to_pc exit_ordinal edge_type := by
    unfold unix_block
    rw [if_pos hunix]
  have htrace := notify_traversing_fragments_live env from_pc to_pc exit_ordinal edge_type
    hgraph hlive
  rw [hblock, trampoline_block_tracked env from_pc to_pc exit_ordinal edge_type trampoline
    hfrom hto htracker] at htrace
  simp only [if_true, List.append_nil] at htrace
  rw [htrace]
  refine ⟨rfl, ?_, ?_, ?_, ?_⟩
  · intro h
    rw [if_pos h]
    rfl
  · intro h
    rw [if_neg h]
    rfl
  · split_ifs <;> rfl
  · split_ifs <;> rfl

/-- Witness of C17: `Y` is a trampoline that is not resolved yet; the direct edge
`X -> Y` is buffered. -/
theorem C17_trampoline_buffering_witness :
    trampoline_edges (notify_traversing_fragments
      (scenario_unix_graph (fun pc => if pc = 0x402000 then some ⟨0, []⟩ else none))
      0x401000 0x402000 2 graph_edge_type.direct_edge) =
      [call_event.pend_trampoline_caller 0x402000 0x401000 2 true] ∧
    written_links (notify_traversing_fragments
      (scenario_unix_graph (fun pc => if pc = 0x402000 then some ⟨0, []⟩ else none))
      0x401000 0x402000 2 graph_edge_type.direct_edge) = [] ∧
    queued_pending_edges (notify_traversing_fragments
      (scenario_unix_graph (fun pc => if pc = 0x402000 then some ⟨0, []⟩ else none))
      0x401000 0x402000 2 graph_edge_type.direct_edge) = [] := by
  obtain ⟨-, h2, -, h4, h5⟩ := C17_trampoline_buffering
    (scenario_unix_graph (fun pc => if pc = 0x402000 then some ⟨0, []⟩ else none))
    0x401000 0x402000 2 graph_edge_type.direct_edge ⟨0, []⟩ rfl rfl rfl rfl rfl rfl
  exact ⟨h2 rfl, h4, h5⟩

/-- C18 as stated fails: in a `UNIX` build with both blocks live and `X` a trampoline
already resolved to `Y`, (1) the transition `X -> Y` reported as a direct edge is
written with `write_link`; (2) when `Y` is itself a tracked, unresolved
trampoline, the indirect transition `X -> Y` is buffered as a pending caller
of `Y`. -/
theorem C18_counterexample :
    written_links (notify_traversing_fragments
      (scenario_unix_graph (fun pc => if pc = 0x401000 then some ⟨0x402000, []⟩ else none))
      0x401000 0x402000 0 graph_edge_type.direct_edge) =
      [call_event.write_link 0x401000 0x402000 (some ⟨7, true⟩) (some ⟨9, true⟩)
        ⟨1, module_type.module_type_normal⟩ ⟨1, module_type.module_type_normal⟩ 0
        graph_edge_type.direct_edge] ∧
    trampoline_edges (notify_traversing_fragments
      (scenario_unix_graph (fun pc =>
        if pc = 0x401000 then some ⟨0x402000, []⟩
        else if pc = 0x402000 then some ⟨0, []⟩ else none))
      0x401000 0x402000 0 graph_edge_type.indirect_edge) =
      [call_event.pend_trampoline_caller 0x402000 0x401000 0 false] := by
  constructor <;> decide

/-- C18 amended: in a `UNIX` build, for an indirect transition (`edge_type ==
indirect_edge`) whose destination block is live and is not itself a tracked
trampoline, where `from` is a trampoline whose `function_entry` is already
resolved, `notify_traversing_fragments` returns without writing any edge: no
`write_link`, no pending edge, no buffered caller, no `write_trampoline`. -/
theorem C18_trampoline_self_jump_suppressed (env : graph_env)
    (from_pc to_pc exit_ordinal : Nat) (trampoline : trampoline_tracker)
    (hunix : env.UNIX = true)
    (hgraph : env.CROWD_SAFE_BB_GRAPH = true)
    (hlive : state_missing_or_inactive (env.get_bb_state to_pc) = false)
    (hno : env.trampoline_trackers to_pc = none)
    (htracker : env.trampoline_trackers from_pc = some trampoline)
    (hresolved : trampoline.function_entry ≠ 0) :
    written_links (notify_traversing_fragments env from_pc to_pc exit_ordinal
      graph_edge_type.indirect_edge) = [] ∧
    queued_pending_edges (notify_traversing_fragments env from_pc to_pc exit_ordinal
      graph_edge_type.indirect_edge) = [] ∧
    trampoline_edges (notify_traversing_fragments env from_pc to_pc exit_ordinal
      graph_edge_type.indirect_edge) = [] := by
  have hblock : unix_block env from_pc to_pc exit_ordinal graph_edge_type.indirect_edge =
      trampoline_block env from_pc to_pc exit_ordinal graph_edge_type.indirect_edge := by
    unfold unix_block
    rw [if_pos hunix]
  obtain ⟨hret, hnone⟩ := trampoline_block_self_jump env from_pc to_pc exit_ordinal trampoline
    hno htracker hresolved
  refine ⟨?_, ?_, ?_⟩
  · rw [notify_traversing_fragments_written, if_neg]
    rintro ⟨-, -, h⟩
    rw [hblock, hret] at h
    cases h
  · rw [notify_traversing_fragments_queued, if_neg]
    rintro ⟨-, h, -⟩
    rw [hlive] at h
    cases h
  · rw [notify_traversing_fragments_live env from_pc to_pc exit_ordinal
      graph_edge_type.indirect_edge hgraph hlive, hblock, hret]
    simp only [if_true, List.append_nil, trampoline_edges_append, hnone]
    rfl

/-- Witness of C18 amended: the indirect jump of the trampoline `X`, resolved to
`Y`, to `Y`. -/
theorem C18_trampoline_self_jump_witness :
    written_links (notify_traversing_fragments
      (scenario_unix_graph (fun pc => if pc = 0x401000 then some ⟨0x402000, []⟩ else none))
      0x401000 0x402000 0 graph_edge_type.indirect_edge) = [] ∧
    queued_pending_edges (notify_traversing_fragments
      (scenario_unix_graph (fun pc => if pc = 0x401000 then some ⟨0x402000, []⟩ else none))
      0x401000 0x402000 0 graph_edge_type.indirect_edge) = [] ∧
    trampoline_edges (notify_traversing_fragments
      (scenario_unix_graph (fun pc => if pc = 0x401000 then some ⟨0x402000, []⟩ else none))
      0x401000 0x402000 0 graph_edge_type.indirect_edge) = [] :=
  C18_trampoline_self_jump_suppressed
    (scenario_unix_graph (fun pc => if pc = 0x401000 then some ⟨0x402000, []⟩ else none))
    0x401000 0x402000 0 ⟨0x402000, []⟩ rfl rfl rfl rfl rfl (by decide)

/-! ## Further claims on the return verification -/

/-- Where the distance fits the 32-bit `int`: a miss on the top frame with the
stack pointer more than 0x1000 but less than `2^31` away from the top frame's
base pointer is a context switch and leaves the shadow stack as it was. -/
theorem context_switch_when_distance_fits (env : dispatch_env) (dcontext : dcontext_t)
    (top : shadow_stack_frame_t) (below : List shadow_stack_frame_t)
    (hgraph : env.CROWD_SAFE_BB_GRAPH = true)
    (hnew : dcontext.csd.ibp_data.ibp_meta.new_path = false)
    (hpend : dcontext.csd.ibp_data.ibp_meta.stack_pending = true)
    (hstack : dcontext.csd.shadow_stack = top :: below)
    (hdiff : dcontext.csd.ibp_data.ibp_to_tag ≠ top.return_address)
    (hnext : dcontext.next_tag ≠ top.return_address)
    (hfar : 0x1000 < |(dcontext.xsp : Int) - (top.base_pointer : Int)|)
    (hfits : |(dcontext.xsp : Int) - (top.base_pointer : Int)| < 2 ^ 31) :
    ∃ r, crowd_safe_dispatch env dcontext = some r ∧
      r.context_switch = true ∧ r.unwind_count = 0 ∧
      r.csd.shadow_stack = dcontext.csd.shadow_stack := by
  have hd : stack_delta dcontext.xsp top.base_pointer > 0x1000 := by
    have h1 := abs_lt.mp hfits
    have h2 := lt_abs.mp hfar
    unfold stack_delta
    have e1 : to_int32 ((dcontext.xsp : Int) - top.base_pointer) =
        (dcontext.xsp : Int) - top.base_pointer := to_int32_eq _ (by omega) (by omega)
    simp only [e1]
    split_ifs with hneg
    · rw [to_int32_eq _ (by omega) (by omega)]
      omega
    · omega
  rw [crowd_safe_dispatch_stack_pending env dcontext hgraph hnew hpend,
    stack_pending_block_context_switch env dcontext.next_tag dcontext.xsp
      ⟨dispatch_prologue dcontext.csd.ibp_data, dcontext.csd.shadow_stack,
        dcontext.csd.shadow_stack_miss_frame⟩ top below hstack
      (Or.inr ⟨by simpa using hdiff, hnext⟩) hd]
  exact ⟨_, rfl, rfl, rfl, rfl⟩

/-- C19, the failing input: on the stack `(0x1000, 0xB)` over the sentinel, a return
to `0xC` (matching no frame) with stack pointer `0x100001010` is `2^32 + 0x10`
bytes away from the top frame, far more than 0x1000; but the `int` `stack_delta`
is `0x10`, so the return is not classified as a context switch: the unwind
loop runs, pops the top frame (`unwind_count = 1`) and the shadow stack after
the call differs from the one before. -/
theorem C19_overflowing_distance_unwinds :
    (0x100001010 : Nat) - 0x1000 > 0x1000 ∧
    stack_delta 0x100001010 0x1000 = 0x10 ∧
    ∃ r, crowd_safe_dispatch scenario_env
        (scenario_return [⟨0x1000, 0xB⟩, scenario_sentinel] 0xC 0x100001010) = some r ∧
      r.context_switch = false ∧
      r.unwind_count = 1 ∧
      r.csd.shadow_stack = [scenario_sentinel] ∧
      r.csd.shadow_stack ≠
        (scenario_return [⟨0x1000, 0xB⟩, scenario_sentinel]
          0xC 0x100001010).csd.shadow_stack :=
  ⟨by decide, by decide, _, rfl, rfl, rfl, rfl, by decide⟩

/-- C20: in a return-pending dispatch whose top frame has the sentinel as base
pointer, for every stack pointer and every destination (also one equal to the
sentinel frame's return address), dispatch returns with the unexpected_return
bit set, no frame popped, `unwind_count = 0` and matched-address false. -/
theorem C20_sentinel_on_top_is_unexpected (env : dispatch_env) (dcontext : dcontext_t)
    (top : shadow_stack_frame_t) (below : List shadow_stack_frame_t)
    (hgraph : env.CROWD_SAFE_BB_GRAPH = true)
    (hnew : dcontext.csd.ibp_data.ibp_meta.new_path = false)
    (hpend : dcontext.csd.ibp_data.ibp_meta.stack_pending = true)
    (hstack : dcontext.csd.shadow_stack = top :: below)
    (htop : top.base_pointer = env.SHADOW_STACK_SENTINEL) :
    ∃ r, crowd_safe_dispatch env dcontext = some r ∧
      r.exit = dispatch_exit.returned ∧
      r.csd.ibp_data.ibp_meta.unexpected_return = true ∧
      r.csd.shadow_stack = dcontext.csd.shadow_stack ∧
      r.unwind_count = 0 ∧
      r.matched_address = false := by
  rw [crowd_safe_dispatch_stack_pending env dcontext hgraph hnew hpend]
  by_cases hdelta : stack_delta dcontext.xsp top.base_pointer > 0x1000
  · rw [stack_pending_block_context_switch env dcontext.next_tag dcontext.xsp
      ⟨dispatch_prologue dcontext.csd.ibp_data, dcontext.csd.shadow_stack,
        dcontext.csd.shadow_stack_miss_frame⟩ top below hstack (Or.inl htop) hdelta]
    exact ⟨_, rfl, rfl, rfl, rfl, rfl, rfl⟩
  · rw [stack_pending_block_unwind env dcontext.next_tag dcontext.xsp
      ⟨dispatch_prologue dcontext.csd.ibp_data, dcontext.csd.shadow_stack,
        dcontext.csd.shadow_stack_miss_frame⟩ top below hstack (Or.inl htop)
      (not_lt.mp hdelta) (top :: below) 0 false
      (unwind_loop_stop env.SHADOW_STACK_SENTINEL dcontext.xsp _ 0 top below
        (fun h => h.2 htop))]
    exact ⟨_, rfl, rfl, rfl, hstack.symm, rfl, rfl⟩

/-- Witness of C20: only the sentinel frame on the stack, and a return to the
sentinel frame's own return address. -/
theorem C20_sentinel_on_top_witness :
    ∃ r, crowd_safe_dispatch scenario_env
        (scenario_return [scenario_sentinel] 0 0x1000) = some r ∧
      r.exit = dispatch_exit.returned ∧
      r.csd.ibp_data.ibp_meta.unexpected_return = true ∧
      r.csd.shadow_stack = (scenario_return [scenario_sentinel] 0 0x1000).csd.shadow_stack ∧
      r.unwind_count = 0 ∧
      r.matched_address = false :=
  C20_sentinel_on_top_is_unexpected scenario_env (scenario_return [scenario_sentinel] 0 0x1000)
    scenario_sentinel [] rfl rfl rfl rfl rfl

/-! ## Claims on the next_tag fallback and on the prologue -/

theorem dispatch_prologue_coupled (d : ibp_metadata_t) :
    (dispatch_prologue d).ibp_from_tag = 0 ↔
      (dispatch_prologue d).ibp_meta.path_pending = false := by
  obtain ⟨f, t, ⟨pp, np, sp, ir, ur⟩⟩ := d
  by_cases hf : f = 0 <;> cases pp <;> simp [dispatch_prologue, hf]

theorem dispatch_prologue_null_from (d : ibp_metadata_t) (h : d.ibp_from_tag = 0) :
    (dispatch_prologue d).ibp_meta.path_pending = false ∧
    (dispatch_prologue d).ibp_from_tag = 0 := by
  obtain ⟨f, t, ⟨pp, np, sp, ir, ur⟩⟩ := d
  simp only at h
  subst h
  cases pp <;> simp [dispatch_prologue]

theorem dispatch_prologue_clear_pending (d : ibp_metadata_t)
    (h : d.ibp_meta.path_pending = false) :
    (dispatch_prologue d).ibp_from_tag = 0 ∧
    (dispatch_prologue d).ibp_meta.path_pending = false := by
  obtain ⟨f, t, ⟨pp, np, sp, ir, ur⟩⟩ := d
  simp only at h
  subst h
  by_cases hf : f = 0 <;> simp [dispatch_prologue, hf]

theorem crowd_safe_dispatch_coupled (env : dispatch_env) (dcontext : dcontext_t)
    (r : dispatch_result)
    (hgraph : env.CROWD_SAFE_BB_GRAPH = true)
    (hr : crowd_safe_dispatch env dcontext = some r) :
    (r.csd.ibp_data.ibp_from_tag = 0 ↔ r.csd.ibp_data.ibp_meta.path_pending = false) := by
  have hc := dispatch_prologue_coupled dcontext.csd.ibp_data
  cases hnew : dcontext.csd.ibp_data.ibp_meta.new_path
  · cases hpend : dcontext.csd.ibp_data.ibp_meta.stack_pending
    · rw [crowd_safe_dispatch_idle env dcontext hgraph hnew hpend] at hr
      injection hr with hr
      subst hr
      exact hc
    · rw [crowd_safe_dispatch_stack_pending env dcontext hgraph hnew hpend] at hr
      obtain ⟨-, -, -, -, -, h6, h7, -⟩ := stack_pending_block_acknowledges env
        dcontext.next_tag dcontext.xsp _ r hr
      rw [h6, h7]
      exact hc
  · by_cases hto : dcontext.csd.ibp_data.ibp_to_tag = 0
    · rw [crowd_safe_dispatch_null_target env dcontext hgraph hnew hto] at hr
      injection hr with hr
      subst hr
      exact hc
    · cases hfrag : env.fragment_lookup dcontext.csd.ibp_data.ibp_to_tag with
      | none =>
        have hnone : crowd_safe_dispatch env dcontext = none := by
          simp [crowd_safe_dispatch, hgraph, hnew, hto, hfrag]
        rw [hnone] at hr
        cases hr
      | some to_fragment =>
        rw [crowd_safe_dispatch_new_path env dcontext to_fragment hgraph hnew hto hfrag] at hr
        injection hr with hr
        subst hr
        exact hc

theorem unwind_loop_break (S xsp t : Nat) :
    ∀ (stack : List shadow_stack_frame_t) (n : Nat) (stk : List shadow_stack_frame_t)
      (c : Nat), unwind_loop S xsp t stack n = some (stk, c, true) →
      ∃ g rest, stk = g :: rest ∧ t = g.return_address := by
  intro stack
  induction stack with
  | nil =>
    intro n stk c h
    rw [unwind_loop_nil] at h
    cases h
  | cons f rest ih =>
    intro n stk c h
    by_cases hg : f.base_pointer < xsp ∧ f.base_pointer ≠ S
    · cases rest with
      | nil =>
        rw [unwind_loop_last S xsp t n f hg] at h
        cases h
      | cons g rest2 =>
        by_cases hm : t = g.return_address
        · rw [unwind_loop_hit S xsp t n f g rest2 hg hm] at h
          simp only [Option.some.injEq, Prod.mk.injEq] at h
          exact ⟨g, rest2, h.1.symm, hm⟩
        · rw [unwind_loop_step S xsp t n f g rest2 hg hm] at h
          exact ih (n + 1) stk c h
    · rw [unwind_loop_stop S xsp t n f rest hg] at h
      simp at h

theorem stack_pending_block_next_tag_irrelevant (env : dispatch_env) (nt1 nt2 xsp : Nat)
    (csd : local_crowd_safe_data_t) (top : shadow_stack_frame_t)
    (below : List shadow_stack_frame_t) (hstack : csd.shadow_stack = top :: below)
    (hdiff : csd.ibp_data.ibp_to_tag ≠ top.return_address)
    (h1 : nt1 ≠ top.return_address) (h2 : nt2 ≠ top.return_address) :
    stack_pending_block env nt1 xsp csd = stack_pending_block env nt2 xsp csd := by
  unfold stack_pending_block
  rw [hstack]
  dsimp only
  rw [if_neg (stack_pending_block_miss_cond env nt1 _ top (Or.inr ⟨hdiff, h1⟩)),
    if_neg (stack_pending_block_miss_cond env nt2 _ top (Or.inr ⟨hdiff, h2⟩))]

theorem stack_pending_block_match_is_to_tag (env : dispatch_env) (next_tag xsp : Nat)
    (csd : local_crowd_safe_data_t) (top : shadow_stack_frame_t)
    (below : List shadow_stack_frame_t) (r : dispatch_result)
    (hstack : csd.shadow_stack = top :: below)
    (hdiff : csd.ibp_data.ibp_to_tag ≠ top.return_address)
    (hnext : next_tag ≠ top.return_address)
    (hr : stack_pending_block env next_tag xsp csd = some r)
    (hmatched : r.matched_address = true) :
    ∃ g rest, r.csd.shadow_stack = g :: rest ∧
      g.return_address = csd.ibp_data.ibp_to_tag := by
  by_cases hdelta : stack_delta xsp top.base_pointer > 0x1000
  · rw [stack_pending_block_context_switch env next_tag xsp csd top below hstack
      (Or.inr ⟨hdiff, hnext⟩) hdelta] at hr
    injection hr with hr
    subst hr
    cases hmatched
  · cases hl : unwind_loop env.SHADOW_STACK_SENTINEL xsp csd.ibp_data.ibp_to_tag
        (top :: below) 0 with
    | none =>
      unfold stack_pending_block at hr
      rw [hstack] at hr
      dsimp only at hr
      rw [if_neg (stack_pending_block_miss_cond env next_tag _ top (Or.inr ⟨hdiff, hnext⟩)),
        if_neg hdelta, hl] at hr
      cases hr
    | some res =>
      obtain ⟨stk, n, e⟩ := res
      rw [stack_pending_block_unwind env next_tag xsp csd top below hstack
        (Or.inr ⟨hdiff, hnext⟩) (not_lt.mp hdelta) stk n e hl] at hr
      injection hr with hr
      subst hr
      simp only at hmatched
      subst hmatched
      obtain ⟨g, rest, h1, h2⟩ := unwind_loop_break env.SHADOW_STACK_SENTINEL xsp
        csd.ibp_data.ibp_to_tag (top :: below) 0 stk n hl
      exact ⟨g, rest, h1, h2.symm⟩

/-- C21: in a return-pending dispatch whose top frame is not the sentinel and
whose `ibp_to_tag` differs from the top frame's return address, (1) when
`dcontext->next_tag` equals that return address the return is matched-address:
exactly the top frame is popped, `unwind_count` stays 0 and the
unexpected_return bit is what it was; (2) when `next_tag` differs too, the
outcome does not depend on `next_tag` at all, and (3) a match reported then is a
match of `ibp_to_tag`: the frame left on top has `ibp_to_tag` as its return
address (the loop compares deeper frames with `ibp_to_tag` only). -/
theorem C21_next_tag_fallback (env : dispatch_env) (dcontext : dcontext_t)
    (top : shadow_stack_frame_t) (below : List shadow_stack_frame_t)
    (hgraph : env.CROWD_SAFE_BB_GRAPH = true)
    (hnew : dcontext.csd.ibp_data.ibp_meta.new_path = false)
    (hpend : dcontext.csd.ibp_data.ibp_meta.stack_pending = true)
    (hstack : dcontext.csd.shadow_stack = top :: below)
    (hpushed : top.base_pointer ≠ env.SHADOW_STACK_SENTINEL)
    (hdiff : dcontext.csd.ibp_data.ibp_to_tag ≠ top.return_address) :
    (dcontext.next_tag = top.return_address →
      ∃ r, crowd_safe_dispatch env dcontext = some r ∧
        r.exit = dispatch_exit.returned ∧
        r.matched_address = true ∧
        r.csd.shadow_stack = below ∧
        r.csd.shadow_stack.length + 1 = dcontext.csd.shadow_stack.length ∧
        r.unwind_count = 0 ∧
        r.csd.ibp_data.ibp_meta.unexpected_return =
          dcontext.csd.ibp_data.ibp_meta.unexpected_return) ∧
    (∀ nt1 nt2 : Nat, nt1 ≠ top.return_address → nt2 ≠ top.return_address →
      crowd_safe_dispatch env ⟨nt1, dcontext.xsp, dcontext.csd⟩ =
        crowd_safe_dispatch env ⟨nt2, dcontext.xsp, dcontext.csd⟩) ∧
    (dcontext.next_tag ≠ top.return_address →
      ∀ r, crowd_safe_dispatch env dcontext = some r → r.matched_address = true →
        ∃ g rest, r.csd.shadow_stack = g :: rest ∧
          g.return_address = dcontext.csd.ibp_data.ibp_to_tag) := by
  have hdiff2 : (dispatch_prologue dcontext.csd.ibp_data).ibp_to_tag ≠ top.return_address := by
    simpa using hdiff
  refine ⟨?_, ?_, ?_⟩
  · intro hnext
    rw [crowd_safe_dispatch_stack_pending env dcontext hgraph hnew hpend,
      stack_pending_block_matched env dcontext.next_tag dcontext.xsp
        ⟨dispatch_prologue dcontext.csd.ibp_data, dcontext.csd.shadow_stack,
          dcontext.csd.shadow_stack_miss_frame⟩ top below hstack hpushed (Or.inr hnext)]
    refine ⟨_, rfl, rfl, rfl, rfl, ?_, rfl, ?_⟩
    · simp [hstack]
    · simp
  · intro nt1 nt2 h1 h2
    rw [crowd_safe_dispatch_stack_pending env ⟨nt1, dcontext.xsp, dcontext.csd⟩ hgraph hnew
        hpend,
      crowd_safe_dispatch_stack_pending env ⟨nt2, dcontext.xsp, dcontext.csd⟩ hgraph hnew
        hpend]
    exact stack_pending_block_next_tag_irrelevant env nt1 nt2 dcontext.xsp
      ⟨dispatch_prologue dcontext.csd.ibp_data, dcontext.csd.shadow_stack,
        dcontext.csd.shadow_stack_miss_frame⟩ top below hstack hdiff2 h1 h2
  · intro hnext r hr hmatched
    rw [crowd_safe_dispatch_stack_pending env dcontext hgraph hnew hpend] at hr
    obtain ⟨g, rest, h1, h2⟩ := stack_pending_block_match_is_to_tag env dcontext.next_tag
      dcontext.xsp ⟨dispatch_prologue dcontext.csd.ibp_data, dcontext.csd.shadow_stack,
        dcontext.csd.shadow_stack_miss_frame⟩ top below r hstack hdiff2 hnext hr hmatched
    exact ⟨g, rest, h1, by simpa using h2⟩

/-- Witness of C21: on the stack `(0x1000, 0xA)` a return with `ibp_to_tag = 0xC` and
`next_tag = 0xA` is matched and pops the frame; on the stack `(0x1000, 0xA)`,
`(0xF00, 0xB)` the same tags match nothing, although the deeper frame returns to
`next_tag`: the top frame is unwound and the return is flagged unexpected. -/
theorem C21_next_tag_fallback_witness :
    (∃ r, crowd_safe_dispatch scenario_env
        (scenario_return_next [⟨0x1000, 0xA⟩, scenario_sentinel] 0xC 0xA 0x1000) = some r ∧
      r.exit = dispatch_exit.returned ∧
      r.matched_address = true ∧
      r.csd.shadow_stack = [scenario_sentinel] ∧
      r.csd.shadow_stack.length + 1 =
        (scenario_return_next [⟨0x1000, 0xA⟩, scenario_sentinel]
          0xC 0xA 0x1000).csd.shadow_stack.length ∧
      r.unwind_count = 0 ∧
      r.csd.ibp_data.ibp_meta.unexpected_return =
        (scenario_return_next [⟨0x1000, 0xA⟩, scenario_sentinel]
          0xC 0xA 0x1000).csd.ibp_data.ibp_meta.unexpected_return) ∧
    (∃ r, crowd_safe_dispatch scenario_env
        (scenario_return_next [⟨0xF00, 0xB⟩, ⟨0x1000, 0xA⟩, scenario_sentinel]
          0xC 0xA 0x1000) = some r ∧
      r.matched_address = false ∧
      r.unwind_count = 1 ∧
      r.csd.shadow_stack = [⟨0x1000, 0xA⟩, scenario_sentinel] ∧
      r.csd.ibp_data.ibp_meta.unexpected_return = true) :=
  ⟨(C21_next_tag_fallback scenario_env
      (scenario_return_next [⟨0x1000, 0xA⟩, scenario_sentinel] 0xC 0xA 0x1000)
      ⟨0x1000, 0xA⟩ [scenario_sentinel] rfl rfl rfl rfl (by decide) (by decide)).1 rfl,
    ⟨_, rfl, rfl, rfl, rfl, rfl⟩⟩

/-- C22: with graph recording on, after the prologue of `crowd_safe_dispatch`
`ibp_from_tag` is null if and only if the path-pending bit is clear: a null
`ibp_from_tag` on entry clears path-pending, a clear path-pending bit on entry
nulls `ibp_from_tag`; the coupling holds in the thread data of every outcome of
dispatch, and dispatch does return normally with it when the transition is
not new-path and either is not stack-pending or has the sentinel at the bottom
of its shadow stack. -/
theorem C22_from_tag_path_pending_coupling (env : dispatch_env) (dcontext : dcontext_t)
    (hgraph : env.CROWD_SAFE_BB_GRAPH = true) :
    ((dispatch_prologue dcontext.csd.ibp_data).ibp_from_tag = 0 ↔
      (dispatch_prologue dcontext.csd.ibp_data).ibp_meta.path_pending = false) ∧
    (dcontext.csd.ibp_data.ibp_from_tag = 0 →
      (dispatch_prologue dcontext.csd.ibp_data).ibp_meta.path_pending = false) ∧
    (dcontext.csd.ibp_data.ibp_meta.path_pending = false →
      (dispatch_prologue dcontext.csd.ibp_data).ibp_from_tag = 0) ∧
    (∀ r, crowd_safe_dispatch env dcontext = some r →
      (r.csd.ibp_data.ibp_from_tag = 0 ↔ r.csd.ibp_data.ibp_meta.path_pending = false)) ∧
    (dcontext.csd.ibp_data.ibp_meta.new_path = false →
      (dcontext.csd.ibp_data.ibp_meta.stack_pending = false ∨
        ∃ above bottom, dcontext.csd.shadow_stack = above ++ [bottom] ∧
          bottom.base_pointer = env.SHADOW_STACK_SENTINEL) →
      ∃ r, crowd_safe_dispatch env dcontext = some r ∧
        r.exit = dispatch_exit.returned ∧
        (r.csd.ibp_data.ibp_from_tag = 0 ↔
          r.csd.ibp_data.ibp_meta.path_pending = false)) := by
  refine ⟨dispatch_prologue_coupled _,
    fun h => (dispatch_prologue_null_from _ h).1,
    fun h => (dispatch_prologue_clear_pending _ h).1,
    fun r hr => crowd_safe_dispatch_coupled env dcontext r hgraph hr, ?_⟩
  intro hnew hcase
  cases hpend : dcontext.csd.ibp_data.ibp_meta.stack_pending
  · have hr := crowd_safe_dispatch_idle env dcontext hgraph hnew hpend
    exact ⟨_, hr, rfl, crowd_safe_dispatch_coupled env dcontext _ hgraph hr⟩
  · rcases hcase with hfalse | ⟨above, bottom, hwf, hbottom⟩
    · rw [hpend] at hfalse
      cases hfalse
    · obtain ⟨r, hr⟩ := stack_pending_block_some env dcontext.next_tag dcontext.xsp
        ⟨dispatch_prologue dcontext.csd.ibp_data, dcontext.csd.shadow_stack,
          dcontext.csd.shadow_stack_miss_frame⟩ above bottom hwf hbottom
      have hexit := (stack_pending_block_acknowledges env dcontext.next_tag dcontext.xsp _ r
        hr).1
      rw [← crowd_safe_dispatch_stack_pending env dcontext hgraph hnew hpend] at hr
      exact ⟨r, hr, hexit, crowd_safe_dispatch_coupled env dcontext r hgraph hr⟩

/-- Witness of C22: a cache hit entered with `ibp_from_tag = 0x400` and path-pending
clear returns with `ibp_from_tag = 0`; one entered with `ibp_from_tag = 0` and
path-pending set returns with path-pending clear. -/
theorem C22_from_tag_path_pending_witness :
    (∃ r, crowd_safe_dispatch scenario_env
        (scenario_transition ⟨false, false, false, false, false⟩ 0x400 0xA00
          [scenario_sentinel]) = some r ∧
      r.exit = dispatch_exit.returned ∧
      (r.csd.ibp_data.ibp_from_tag = 0 ↔ r.csd.ibp_data.ibp_meta.path_pending = false)) ∧
    (dispatch_prologue (scenario_transition ⟨false, false, false, false, false⟩ 0x400 0xA00
      [scenario_sentinel]).csd.ibp_data).ibp_from_tag = 0 ∧
    (dispatch_prologue (scenario_transition ⟨true, false, false, false, false⟩ 0 0xA00
      [scenario_sentinel]).csd.ibp_data).ibp_meta.path_pending = false :=
  ⟨(C22_from_tag_path_pending_coupling scenario_env
      (scenario_transition ⟨false, false, false, false, false⟩ 0x400 0xA00
        [scenario_sentinel]) rfl).2.2.2.2 rfl (Or.inl rfl),
    (C22_from_tag_path_pending_coupling scenario_env
      (scenario_transition ⟨false, false, false, false, false⟩ 0x400 0xA00
        [scenario_sentinel]) rfl).2.2.1 rfl,
    (C22_from_tag_path_pending_coupling scenario_env
      (scenario_transition ⟨true, false, false, false, false⟩ 0 0xA00
        [scenario_sentinel]) rfl).2.1 rfl⟩

end Blackbox
